import Mathlib

/-!
# Datepicker panning, span reconciliation and hold-repeat

A shallow embedding of `src/datepicker.js` and the properties established about it.

Conventions of the embedding.

* A JavaScript `Date` handled by the widget is a local midnight (it comes from
  `$.datepicker.parseDate`, from `datepicker("getDate")` or from `new Date("mm/dd/yyyy")`), and
  the code only reads and writes its local calendar fields.  It is represented by its local
  day number, an `Int` counting days from 1 January 1970; `<` and `>` on `Date` objects compare
  time values, which for local midnights is the order of day numbers.
* The calendar functions follow the ECMAScript definitions (`DayFromYear`, `YearFromTime`,
  `MonthFromTime`, `DateFromTime`, `MakeDay`, `WeekDay`), stated on day numbers.
* A jQuery element is represented by what the code reads from it: `.data("pan")` and the
  datepicker options `minDate` and `maxDate` (`null` for an element that is not a datepicker).
  `data-pan` takes the four documented values `day`, `week`, `month`, `year` or is absent.
* The date handed to `datepicker("setDate", date)` is taken as the value the picker holds
  afterwards; what the widget itself does with a date outside its `minDate`/`maxDate` is not part
  of the source.
* A picker has two fields: the input the datepicker is attached to (`$altField`, whose value
  `_manageDateSpan` reads as its own `date`, line 192) and the display field (`$dispField`, the
  widget's `altField`, line 302), which is the element a counterpart looks up and reads through
  `$dp_span.val()` (lines 198-202, 241-245).  `datepicker("setDate", ...)` sets the input inside
  `_setDate`, where the patch of lines 86-95 fires `change`, and refreshes the display field only
  after `_setDate` has returned.
* JavaScript numbers used for the timer are exact rationals.
-/

namespace Datepicker

/-! ## Calendar -/

/-- Day number of 1 January of year `y` (ECMAScript `DayFromYear`). -/
def DayFromYear (y : Int) : Int :=
  365 * (y - 1970) + (y - 1969) / 4 - (y - 1901) / 100 + (y - 1601) / 400

/-- Number of days in year `y` (ECMAScript `DaysInYear`). -/
def DaysInYear (y : Int) : Int :=
  if y % 4 ≠ 0 then 365 else if y % 100 ≠ 0 then 366 else if y % 400 ≠ 0 then 365 else 366

/-- The year containing day `d` (ECMAScript `YearFromTime`): the largest `y` with
`DayFromYear y ≤ d`, computed from an estimate that is off by at most one. -/
def YearFromDay (d : Int) : Int :=
  let y := 1970 + (400 * d) / 146097
  if d < DayFromYear y then y - 1 else if DayFromYear (y + 1) ≤ d then y + 1 else y

/-- Leap flag of year `y`, 0 or 1 (ECMAScript `InLeapYear`). -/
def InLeapYear (y : Int) : Int := DaysInYear y - 365

/-- Zero-based day within its year (ECMAScript `DayWithinYear`). -/
def DayWithinYear (d : Int) : Int := d - DayFromYear (YearFromDay d)

/-- Day within the year on which month `m` (0 = January) starts. -/
def monthStart (leap m : Int) : Int :=
  if m = 0 then 0 else if m = 1 then 31 else if m = 2 then 59 + leap
  else if m = 3 then 90 + leap else if m = 4 then 120 + leap else if m = 5 then 151 + leap
  else if m = 6 then 181 + leap else if m = 7 then 212 + leap else if m = 8 then 243 + leap
  else if m = 9 then 273 + leap else if m = 10 then 304 + leap else 334 + leap

/-- Month of a day within the year (the table of ECMAScript `MonthFromTime`). -/
def monthOfDayWithinYear (leap w : Int) : Int :=
  if w < 31 then 0 else if w < 59 + leap then 1 else if w < 90 + leap then 2
  else if w < 120 + leap then 3 else if w < 151 + leap then 4 else if w < 181 + leap then 5
  else if w < 212 + leap then 6 else if w < 243 + leap then 7 else if w < 273 + leap then 8
  else if w < 304 + leap then 9 else if w < 334 + leap then 10 else 11

/-- Month (0 = January) of day `d` (ECMAScript `MonthFromTime`). -/
def MonthFromDay (d : Int) : Int :=
  monthOfDayWithinYear (InLeapYear (YearFromDay d)) (DayWithinYear d)

/-- Day of the month (1-based) of day `d` (ECMAScript `DateFromTime`). -/
def DateFromDay (d : Int) : Int :=
  DayWithinYear d - monthStart (InLeapYear (YearFromDay d)) (MonthFromDay d) + 1

/-- Length of month `m` (0 = January) in a year with the given leap flag. -/
def DaysInMonth (leap m : Int) : Int :=
  if m = 1 then 28 + leap
  else if m = 3 ∨ m = 5 ∨ m = 8 ∨ m = 10 then 30 else 31

/-- Day number of the given year, month and day of month, where month and day of month may lie
outside their usual ranges and roll over (ECMAScript `MakeDay`). -/
def MakeDay (year month date : Int) : Int :=
  let ym := year + month / 12
  let mn := month % 12
  DayFromYear ym + monthStart (InLeapYear ym) mn + date - 1

/-! ## The `Date` methods used by the source -/

/-- Method `Date.prototype.getDay`: 0 = Sunday, 1 = Monday, ...; 1 January 1970 was a Thursday
(ECMAScript `WeekDay`). -/
def getDay (d : Int) : Int := (d + 4) % 7

/-- Method `Date.prototype.getDate`: the day of the month. -/
def getDate (d : Int) : Int := DateFromDay d

/-- Method `Date.prototype.getMonth`: the month, 0 = January. -/
def getMonth (d : Int) : Int := MonthFromDay d

/-- Method `Date.prototype.getFullYear`. -/
def getFullYear (d : Int) : Int := YearFromDay d

/-- Method `Date.prototype.setDate(date)`: the day of the month is replaced and rolls over. -/
def setDate (d : Int) (date : Int) : Int := MakeDay (YearFromDay d) (MonthFromDay d) date

/-- Method `Date.prototype.setMonth(month)`: the day of the month is kept. -/
def setMonth (d : Int) (month : Int) : Int := MakeDay (YearFromDay d) month (DateFromDay d)

/-- Method `Date.prototype.setMonth(month, date)`. -/
def setMonth2 (d : Int) (month date : Int) : Int := MakeDay (YearFromDay d) month date

/-- Method `Date.prototype.setFullYear(year)`: month and day of the month are kept. -/
def setFullYear (d : Int) (year : Int) : Int := MakeDay year (MonthFromDay d) (DateFromDay d)

/-- Milliseconds in a day: `24*60*60*1000`. -/
def oneDay : Int := 24 * 60 * 60 * 1000

/-- Method `Date.prototype.getTime`, for the midnight of day `d`; the offset of local time from
UTC, which `_daysBetween` rounds away, is left out. -/
def getTime (d : Int) : Int := d * oneDay

/-- Function `Math.round(a / b)` for integers `a` and `b > 0`: the floor of `a / b + 1/2`. -/
def mathRound (a b : Int) : Int := (2 * a + b) / (2 * b)

/-- The `Date` of a date string in the format `mm/dd/yyyy` (month, day, year), as produced by
`$.datepicker.parseDate("mm/dd/yy", ...)`. -/
def mdy (month day year : Int) : Int := MakeDay year (month - 1) day

/-! ## Elements and pan units -/

/-- The values of `data-pan`. -/
inductive Pan where
  | day
  | week
  | month
  | year
  deriving DecidableEq, Repr

/-- A jQuery element as the source reads it: `.data("pan")`, `.datepicker("option", "minDate")`
and `.datepicker("option", "maxDate")`, each absent (`undefined` / `null`) or present. -/
structure Element where
  pan : Option Pan
  minDate : Option Int
  maxDate : Option Int
  deriving DecidableEq, Repr

/-- The pan control that receives `mousedown` (`$this`, line 469): it is built in
`renderDatepickers` as `$("<span>").addClass("dp-pan")` (line 130), cloned and given the class
`left` or `right` (lines 340, 343).  No `data-pan` is attached to it and it is not a datepicker;
jQuery reads `.data` and the datepicker options from the element itself, so `.data("pan")` is
`undefined` and the options read from it are `null`. -/
def panControl : Element := ⟨none, none, none⟩

/-! ## `adjustDateByPan` (source lines 573-628) -/

/-- Lines 593-599: the first Monday on or after `min`. -/
def minMonday (min : Int) : Int :=
  let minMon := min
  let minDays := (getDay min + 6) % 7
  let minMon := setDate minMon (getDate minMon - minDays)
  if minMon < min then setDate minMon (getDate minMon + 7) else minMon

/-- Lines 603-609: the last Monday on or before `max`. -/
def maxMonday (max : Int) : Int :=
  let maxMon := max
  let maxDays := (getDay max + 6) % 7
  let maxMon := setDate maxMon (getDate maxMon - maxDays)
  if maxMon > max then setDate maxMon (getDate maxMon - 7) else maxMon

/-- Lines 616-621: `if (min && date < minMon) date = minMon; else if (max && date > maxMon)
date = maxMon;`, where `minMon` / `maxMon` are present exactly when `min` / `max` are. -/
def limitToMondays (minMon maxMon : Option Int) (date : Int) : Int :=
  match minMon with
  | some lo =>
    if date < lo then lo
    else
      match maxMon with
      | some hi => if date > hi then hi else date
      | none => date
  | none =>
    match maxMon with
    | some hi => if date > hi then hi else date
    | none => date

/-- Function `adjustDateByPan(date, $picker)` for a `date` that is a `Date`; `pan`, `min` and
`max` are read from the element passed as `$picker`. -/
def adjustDateByPan (date : Int) (picker : Element) : Int :=
  match picker.pan with
  | some Pan.month => setDate date 1
  | some Pan.year => setMonth2 date 0 1
  | some Pan.week =>
    let minMon := picker.minDate.map minMonday
    let maxMon := picker.maxDate.map maxMonday
    let newDate := (getDay date + 6) % 7
    let date := setDate date (getDate date - newDate)
    limitToMondays minMon maxMon date
  | _ => date

/-! ## The pan handler `repeat` (source lines 466-549) -/

/-- The `switch (pan.toLowerCase())` of `repeat` (lines 483-526), for a `date` that is a `Date`;
`add` is `$this.hasClass("right")`, `min` and `max` are the picker's options. -/
def panCase (pan : Pan) (add : Bool) (min max : Option Int) (date : Int) : Int :=
  match pan with
  | Pan.week =>
    let newDate := (getDay date + 6) % 7
    let date := setDate date (getDate date - newDate)
    let origDate := date
    if add then
      let date := setDate date (getDate date + 7)
      match max with
      | some mx => if date > mx then origDate else date
      | none => date
    else
      let date := setDate date (getDate date - 7)
      match min with
      | some mn => if date < mn then origDate else date
      | none => date
  | Pan.month =>
    if add then setMonth date (getMonth date + 1) else setMonth date (getMonth date - 1)
  | Pan.year =>
    if add then setFullYear date (getFullYear date + 1)
    else setFullYear date (getFullYear date - 1)
  | Pan.day =>
    if add then setDate date (getDate date + 1) else setDate date (getDate date - 1)

/-- Line 471. -/
def minInterval : ℚ := 75

/-- Lines 545-547: `if (start > minInterval) start += (start / 7) * -1`. -/
def nextStart (start : ℚ) : ℚ :=
  if start > minInterval then start + (start / 7) * (-1) else start

/-- The delay `interval || start` of line 541; `interval` is absent when `repeat` is called by
the timer. -/
def delayArg (interval : Option ℚ) (start : ℚ) : ℚ :=
  match interval with
  | some i => if i = 0 then start else i
  | none => start

/-- State of one press of a pan control: the picker's date (`datepicker("getDate")`, `null` for an
empty field), the closure variable `start`, and the delay handed to `setTimeout` by the latest
call of `repeat`, if that call scheduled a timer. -/
structure HoldState where
  value : Option Int
  start : ℚ
  scheduled : Option ℚ
  deriving DecidableEq

/-- One call `repeat(interval)` (lines 472-548).  `ctl` is `$this`, the pan control that was
pressed; `picker` is `$this.parent().children(".hasDatepicker")`.  The unit of the `switch` and
its limits are read from `picker` (lines 475-480), while line 528 hands `$this` to
`adjustDateByPan`.  The date passed to `datepicker("setDate", date)` becomes the picker's value;
without a date nothing is set and no timer is scheduled (line 531). -/
def repeatCall (ctl picker : Element) (add : Bool) (interval : Option ℚ) (s : HoldState) :
    HoldState :=
  let pan := picker.pan.getD Pan.day
  let date := s.value.map (panCase pan add picker.minDate picker.maxDate)
  let date := date.map (fun d => adjustDateByPan d ctl)
  match date with
  | some d => ⟨some d, nextStart s.start, some (delayArg interval s.start)⟩
  | none => ⟨s.value, nextStart s.start, none⟩

/-- The `mousedown` handler for the left button (lines 466-550): `start = 500` and
`repeat(500)`. -/
def mousedown (ctl picker : Element) (add : Bool) (value : Option Int) : HoldState :=
  repeatCall ctl picker add (some 500) ⟨value, 500, none⟩

/-- The timer set by `setTimeout(repeat, ...)` fires: `repeat` runs without an argument.  Nothing
happens when the previous call scheduled no timer. -/
def timerFire (ctl picker : Element) (add : Bool) (s : HoldState) : HoldState :=
  match s.scheduled with
  | some _ => repeatCall ctl picker add none s
  | none => s

/-- The state after the press and `n` further timer fires, that is after `n + 1` calls of
`repeat`, with the button held. -/
def hold (ctl picker : Element) (add : Bool) (value : Option Int) : Nat → HoldState
  | 0 => mousedown ctl picker add value
  | n + 1 => timerFire ctl picker add (hold ctl picker add value n)

/-- One pan step on a picker holding `date`: one call of `repeat` (a click, released before the
timer fires), with `ctl` the element that `repeat` hands to `adjustDateByPan`; the result is the
date committed by `datepicker("setDate", date)`. -/
def panStepWith (ctl picker : Element) (add : Bool) (date : Int) : Option Int :=
  (mousedown ctl picker add (some date)).value

/-- One pan step as the source runs it: `adjustDateByPan(date, $this)` receives the pan control
that was pressed. -/
def panStep (picker : Element) (add : Bool) (date : Int) : Option Int :=
  panStepWith panControl picker add date

/-- A pan step to the right followed by a pan step to the left. -/
def panRightLeft (ctl picker : Element) (date : Int) : Option Int :=
  (panStepWith ctl picker true date).bind (panStepWith ctl picker false)

/-- The clamp of a value to the interval from `lo` to `hi`, in which the claim about week
panning is phrased. -/
def clamp (x lo hi : Int) : Int := max lo (min x hi)

/-! ## `_manageDateSpan` (source lines 155-278) -/

/-- Function `_daysBetween(startDate, endDate)` (lines 155-166): the rounded quotient of the
distance in milliseconds by `oneDay`. -/
def daysBetween (startDate endDate : Int) : Int :=
  mathRound |getTime startDate - getTime endDate| oneDay

/-- Function `_dateFromOffset(date, offset)` (lines 168-178) for a `date` that is a `Date`. -/
def dateFromOffset (date offset : Int) : Int :=
  setDate date (getDate date + offset)

/-- The `data-datespanstart` branch (lines 195-234) for a selected `date` and a non-empty
counterpart value `target`; the result is the value the counterpart holds afterwards: the
reconciled `target_date` when it is written (lines 221-227), its old value otherwise. -/
def manageDateSpanStart (maxDaySpan : Option Nat) (date target : Int) : Int :=
  let target_date := target
  let target_date :=
    match maxDaySpan with
    | some m => if daysBetween date target_date > m then dateFromOffset date (-m) else target_date
    | none => target_date
  let target_date := if date < target_date then date else target_date
  if getTime target_date ≠ getTime target then target_date else target

/-- The `data-datespanend` branch (lines 237-276) for a selected `date` and a non-empty
counterpart value `target`; the result is the value the counterpart holds afterwards: the
reconciled `target_date` when it is written (lines 264-270), its old value otherwise. -/
def manageDateSpanEnd (maxDaySpan : Option Nat) (date target : Int) : Int :=
  let target_date := target
  let target_date :=
    match maxDaySpan with
    | some m => if daysBetween date target_date > m then dateFromOffset date m else target_date
    | none => target_date
  let target_date := if date > target_date then date else target_date
  if getTime target_date ≠ getTime target then target_date else target

/-! ## Two mutually linked pickers -/

/-- The fields of two linked pickers A and B: for each the date of the input the datepicker is
attached to and the date its display field shows. -/
structure Pickers where
  aInput : Int
  aShown : Int
  bInput : Int
  bShown : Int
  deriving DecidableEq, Repr

/-- Both pickers show the values they hold: A holds `a` and B holds `b`. -/
def settled (a b : Int) : Pickers := ⟨a, a, b, b⟩

/-- The change cascade between picker A, whose `data-datespanstart` names B, and picker B, whose
`data-datespanend` names A; neither has minDate/maxDate, `spanA` and `spanB` are their
`data-maxdayspan`.  With `true` the change handler `_manageDateSpan` of A runs (line 324): its
`date` is A's input (line 192), its target is what B's display field shows (lines 198-202); when
the reconciled target differs from what B shows (line 221) it calls
`datepicker('setDate', target_date)` on B (line 223): B's input is set, the patched `_setDate`
(lines 86-95) fires `change` on B, whose handler runs in turn with `false`, and only when that has
returned is B's display field refreshed from B's input.  The handler of B does the same towards
A with the `data-datespanend` branch (lines 237-276).  A handler that finds nothing to write
ends the cascade.  The first argument bounds the number of handler runs; the result is the final
state with the number of writes. -/
def cascade (spanA spanB : Option Nat) : Nat → Bool → Pickers → Option (Pickers × Nat)
  | 0, _, _ => none
  | fuel + 1, true, s =>
    if manageDateSpanStart spanA s.aInput s.bShown ≠ s.bShown then
      (cascade spanA spanB fuel false
          ⟨s.aInput, s.aShown, manageDateSpanStart spanA s.aInput s.bShown, s.bShown⟩).map
        (fun r => (⟨r.1.aInput, r.1.aShown, r.1.bInput, r.1.bInput⟩, r.2 + 1))
    else some (s, 0)
  | fuel + 1, false, s =>
    if manageDateSpanEnd spanB s.bInput s.aShown ≠ s.aShown then
      (cascade spanA spanB fuel true
          ⟨manageDateSpanEnd spanB s.bInput s.aShown, s.aShown, s.bInput, s.bShown⟩).map
        (fun r => (⟨r.1.aInput, r.1.aInput, r.1.bInput, r.1.bShown⟩, r.2 + 1))
    else some (s, 0)

/-! ## Calendar lemmas -/

theorem DayFromYear_succ (y : Int) : DayFromYear (y + 1) = DayFromYear y + DaysInYear y := by
  unfold DayFromYear DaysInYear
  split_ifs <;> omega

theorem DayFromYear_mono {a b : Int} (h : a ≤ b) : DayFromYear a ≤ DayFromYear b := by
  unfold DayFromYear
  omega

theorem YearFromDay_spec (d : Int) :
    DayFromYear (YearFromDay d) ≤ d ∧ d < DayFromYear (YearFromDay d + 1) := by
  unfold YearFromDay
  simp only
  generalize hq : (400 * d) / 146097 = q
  have hq1 : 146097 * q ≤ 400 * d := by omega
  have hq2 : 400 * d < 146097 * q + 146097 := by omega
  have e1 : (1970 + q - 1 + 1 : Int) = 1970 + q := by ring
  have e2 : (1970 + q + 1 + 1 : Int) = 1970 + q + 2 := by ring
  split_ifs with h1 h2
  · rw [e1]; refine ⟨?_, h1⟩
    unfold DayFromYear at *; omega
  · rw [e2]; refine ⟨h2, ?_⟩
    unfold DayFromYear at *; omega
  · exact ⟨by omega, by omega⟩

theorem YearFromDay_unique {x y : Int} (h1 : DayFromYear y ≤ x) (h2 : x < DayFromYear (y + 1)) :
    YearFromDay x = y := by
  obtain ⟨a, b⟩ := YearFromDay_spec x
  by_contra hne
  rcases lt_or_gt_of_ne hne with hlt | hgt
  · have := DayFromYear_mono (show YearFromDay x + 1 ≤ y by omega)
    omega
  · have := DayFromYear_mono (show y + 1 ≤ YearFromDay x by omega)
    omega

theorem InLeapYear_range (y : Int) : 0 ≤ InLeapYear y ∧ InLeapYear y ≤ 1 := by
  unfold InLeapYear DaysInYear
  split_ifs <;> omega

theorem DaysInYear_eq (y : Int) : DaysInYear y = 365 + InLeapYear y := by
  unfold InLeapYear
  omega

theorem DayWithinYear_range (d : Int) :
    0 ≤ DayWithinYear d ∧ DayWithinYear d < 365 + InLeapYear (YearFromDay d) := by
  obtain ⟨a, b⟩ := YearFromDay_spec d
  rw [DayFromYear_succ, DaysInYear_eq] at b
  unfold DayWithinYear
  omega

theorem MonthFromDay_range (d : Int) : 0 ≤ MonthFromDay d ∧ MonthFromDay d ≤ 11 := by
  unfold MonthFromDay monthOfDayWithinYear
  omega

theorem monthOfDayWithinYear_start (l m dt : Int) (hl : 0 ≤ l) (hl1 : l ≤ 1) (h0 : 0 ≤ m)
    (h1 : m ≤ 11) (h2 : 1 ≤ dt) (h3 : dt ≤ DaysInMonth l m) :
    monthOfDayWithinYear l (monthStart l m + dt - 1) = m ∧ 0 ≤ monthStart l m ∧
      monthStart l m + dt - 1 < 365 + l := by
  have hm : m = 0 ∨ m = 1 ∨ m = 2 ∨ m = 3 ∨ m = 4 ∨ m = 5 ∨ m = 6 ∨ m = 7 ∨ m = 8 ∨ m = 9 ∨
      m = 10 ∨ m = 11 := by omega
  unfold DaysInMonth at h3
  unfold monthStart
  rcases hm with h | h | h | h | h | h | h | h | h | h | h | h <;> subst h <;>
  · repeat (first | rw [if_pos (by omega)] at h3 | rw [if_neg (by omega)] at h3)
    repeat (first | rw [if_pos (by omega)] | rw [if_neg (by omega)])
    unfold monthOfDayWithinYear
    repeat (first | rw [if_pos (by omega)] | rw [if_neg (by omega)])
    omega

theorem dayWithinYear_split (l w : Int) (h0 : 0 ≤ w) (h1 : w < 365 + l) :
    ∃ m dt : Int, 0 ≤ m ∧ m ≤ 11 ∧ 1 ≤ dt ∧ dt ≤ DaysInMonth l m ∧
      w = monthStart l m + dt - 1 := by
  have fin : ∀ m s : Int, 0 ≤ m → m ≤ 11 → monthStart l m = s → s ≤ w →
      w - s + 1 ≤ DaysInMonth l m →
      ∃ m dt : Int, 0 ≤ m ∧ m ≤ 11 ∧ 1 ≤ dt ∧ dt ≤ DaysInMonth l m ∧
        w = monthStart l m + dt - 1 := by
    intro m s a b c d e
    exact ⟨m, w - s + 1, a, b, by omega, e, by omega⟩
  unfold DaysInMonth at fin
  by_cases c0 : w < 31
  · refine fin 0 0 (by omega) (by omega) rfl (by omega) ?_
    repeat (first | rw [if_pos (by omega)] | rw [if_neg (by omega)])
    omega
  by_cases c1 : w < 59 + l
  · refine fin 1 31 (by omega) (by omega) rfl (by omega) ?_
    rw [if_pos rfl]
    omega
  by_cases c2 : w < 90 + l
  · refine fin 2 (59 + l) (by omega) (by omega) rfl (by omega) ?_
    repeat (first | rw [if_pos (by omega)] | rw [if_neg (by omega)])
    omega
  by_cases c3 : w < 120 + l
  · refine fin 3 (90 + l) (by omega) (by omega) rfl (by omega) ?_
    repeat (first | rw [if_pos (by omega)] | rw [if_neg (by omega)])
    omega
  by_cases c4 : w < 151 + l
  · refine fin 4 (120 + l) (by omega) (by omega) rfl (by omega) ?_
    repeat (first | rw [if_pos (by omega)] | rw [if_neg (by omega)])
    omega
  by_cases c5 : w < 181 + l
  · refine fin 5 (151 + l) (by omega) (by omega) rfl (by omega) ?_
    repeat (first | rw [if_pos (by omega)] | rw [if_neg (by omega)])
    omega
  by_cases c6 : w < 212 + l
  · refine fin 6 (181 + l) (by omega) (by omega) rfl (by omega) ?_
    repeat (first | rw [if_pos (by omega)] | rw [if_neg (by omega)])
    omega
  by_cases c7 : w < 243 + l
  · refine fin 7 (212 + l) (by omega) (by omega) rfl (by omega) ?_
    repeat (first | rw [if_pos (by omega)] | rw [if_neg (by omega)])
    omega
  by_cases c8 : w < 273 + l
  · refine fin 8 (243 + l) (by omega) (by omega) rfl (by omega) ?_
    repeat (first | rw [if_pos (by omega)] | rw [if_neg (by omega)])
    omega
  by_cases c9 : w < 304 + l
  · refine fin 9 (273 + l) (by omega) (by omega) rfl (by omega) ?_
    repeat (first | rw [if_pos (by omega)] | rw [if_neg (by omega)])
    omega
  by_cases c10 : w < 334 + l
  · refine fin 10 (304 + l) (by omega) (by omega) rfl (by omega) ?_
    repeat (first | rw [if_pos (by omega)] | rw [if_neg (by omega)])
    omega
  refine fin 11 (334 + l) (by omega) (by omega) rfl (by omega) ?_
  repeat (first | rw [if_pos (by omega)] | rw [if_neg (by omega)])
  omega

theorem monthStart_le (l w : Int) (hl : 0 ≤ l) (hl1 : l ≤ 1) (h0 : 0 ≤ w) (h1 : w < 365 + l) :
    monthStart l (monthOfDayWithinYear l w) ≤ w ∧
      w - monthStart l (monthOfDayWithinYear l w) < DaysInMonth l (monthOfDayWithinYear l w) := by
  obtain ⟨m, dt, a, b, c, d, e⟩ := dayWithinYear_split l w h0 h1
  obtain ⟨k1, _, _⟩ := monthOfDayWithinYear_start l m dt hl hl1 a b c d
  rw [e, k1]
  omega

theorem DateFromDay_range (d : Int) :
    1 ≤ DateFromDay d ∧
      DateFromDay d ≤ DaysInMonth (InLeapYear (YearFromDay d)) (MonthFromDay d) := by
  obtain ⟨a, b⟩ := DayWithinYear_range d
  obtain ⟨l0, l1⟩ := InLeapYear_range (YearFromDay d)
  have := monthStart_le _ _ l0 l1 a b
  unfold DateFromDay MonthFromDay
  omega

theorem MakeDay_of_month {y m : Int} (h0 : 0 ≤ m) (h1 : m ≤ 11) (dt : Int) :
    MakeDay y m dt = DayFromYear y + monthStart (InLeapYear y) m + dt - 1 := by
  unfold MakeDay
  have e1 : m / 12 = 0 := by omega
  have e2 : m % 12 = m := by omega
  simp only [e1, e2, add_zero]

/-- Rebuilding a day from its own calendar fields gives the day back. -/
theorem MakeDay_civil (d : Int) : MakeDay (YearFromDay d) (MonthFromDay d) (DateFromDay d) = d := by
  obtain ⟨h0, h1⟩ := MonthFromDay_range d
  rw [MakeDay_of_month h0 h1]
  unfold DateFromDay DayWithinYear
  omega

/-- The calendar fields of a day built from an in-range month and day of month. -/
theorem civil_MakeDay {y m dt : Int} (h0 : 0 ≤ m) (h1 : m ≤ 11) (h2 : 1 ≤ dt)
    (h3 : dt ≤ DaysInMonth (InLeapYear y) m) :
    YearFromDay (MakeDay y m dt) = y ∧ MonthFromDay (MakeDay y m dt) = m ∧
      DateFromDay (MakeDay y m dt) = dt := by
  rw [MakeDay_of_month h0 h1]
  obtain ⟨l0, l1⟩ := InLeapYear_range y
  obtain ⟨k1, k2, k3⟩ := monthOfDayWithinYear_start _ m dt l0 l1 h0 h1 h2 h3
  have hy : YearFromDay (DayFromYear y + monthStart (InLeapYear y) m + dt - 1) = y := by
    apply YearFromDay_unique
    · omega
    · rw [DayFromYear_succ, DaysInYear_eq]
      omega
  have hw : DayWithinYear (DayFromYear y + monthStart (InLeapYear y) m + dt - 1)
      = monthStart (InLeapYear y) m + dt - 1 := by
    unfold DayWithinYear; rw [hy]; omega
  have hm : MonthFromDay (DayFromYear y + monthStart (InLeapYear y) m + dt - 1) = m := by
    unfold MonthFromDay
    rw [hy, hw, k1]
  refine ⟨hy, hm, ?_⟩
  unfold DateFromDay
  rw [hm, hy, hw]
  omega

/-- The statement `date.setDate(date.getDate() + k)` moves the date by `k` days. -/
theorem setDate_getDate_add (d k : Int) : setDate d (getDate d + k) = d + k := by
  obtain ⟨h0, h1⟩ := MonthFromDay_range d
  unfold setDate getDate
  rw [MakeDay_of_month h0 h1]
  unfold DateFromDay DayWithinYear
  omega

theorem setDate_getDate_sub (d k : Int) : setDate d (getDate d - k) = d - k := by
  have h := setDate_getDate_add d (-k)
  simpa [sub_eq_add_neg] using h

theorem DaysInMonth_ge (l m : Int) (hl : 0 ≤ l) : 28 ≤ DaysInMonth l m := by
  unfold DaysInMonth
  split_ifs <;> omega

/-- The calendar fields of the first day of the month of `d`. -/
theorem civil_setDate_one (d : Int) :
    YearFromDay (setDate d 1) = YearFromDay d ∧ MonthFromDay (setDate d 1) = MonthFromDay d ∧
      DateFromDay (setDate d 1) = 1 := by
  obtain ⟨h0, h1⟩ := MonthFromDay_range d
  have := DaysInMonth_ge (InLeapYear (YearFromDay d)) (MonthFromDay d)
    (InLeapYear_range _).1
  exact civil_MakeDay h0 h1 le_rfl (by omega)

/-- The calendar fields of 1 January of year `y`. -/
theorem civil_january_first (y : Int) :
    YearFromDay (MakeDay y 0 1) = y ∧ MonthFromDay (MakeDay y 0 1) = 0 ∧
      DateFromDay (MakeDay y 0 1) = 1 := by
  have := DaysInMonth_ge (InLeapYear y) 0 (InLeapYear_range _).1
  exact civil_MakeDay le_rfl (by omega) le_rfl (by omega)

/-- The calendar fields of a date written `mm/dd/yyyy` with a month from 1 to 12 and a day that
exists in that month. -/
theorem civil_mdy {month day year : Int} (h0 : 1 ≤ month) (h1 : month ≤ 12) (h2 : 1 ≤ day)
    (h3 : day ≤ DaysInMonth (InLeapYear year) (month - 1)) :
    getFullYear (mdy month day year) = year ∧ getMonth (mdy month day year) = month - 1 ∧
      getDate (mdy month day year) = day :=
  civil_MakeDay (by omega) (by omega) h2 h3

theorem civil_mdy_witness :
    getFullYear (mdy 10 28 2010) = 2010 ∧ getMonth (mdy 10 28 2010) = 10 - 1 ∧
      getDate (mdy 10 28 2010) = 28 :=
  civil_mdy (by decide) (by decide) (by decide) (by decide)

/-! ## Week alignment lemmas -/

/-- Lines 612-613 (and 485-486): the Monday on or before `d`. -/
theorem mondayFloor_eq (d : Int) :
    setDate d (getDate d - (getDay d + 6) % 7) = d - (d + 3) % 7 := by
  rw [setDate_getDate_sub]
  unfold getDay
  omega

theorem minMonday_eq (a : Int) :
    minMonday a = if (a + 3) % 7 = 0 then a else a - (a + 3) % 7 + 7 := by
  unfold minMonday
  simp only [setDate_getDate_sub, setDate_getDate_add]
  unfold getDay
  split_ifs <;> omega

theorem maxMonday_eq (b : Int) : maxMonday b = b - (b + 3) % 7 := by
  unfold maxMonday
  simp only [setDate_getDate_sub]
  unfold getDay
  split_ifs <;> omega

theorem minMonday_spec (a : Int) :
    (minMonday a + 3) % 7 = 0 ∧ a ≤ minMonday a ∧ minMonday a < a + 7 := by
  rw [minMonday_eq]
  split_ifs <;> omega

theorem maxMonday_spec (b : Int) :
    (maxMonday b + 3) % 7 = 0 ∧ maxMonday b ≤ b ∧ b < maxMonday b + 7 := by
  rw [maxMonday_eq]
  omega

theorem adjustDateByPan_week (d : Int) (lo hi : Option Int) :
    adjustDateByPan d ⟨some Pan.week, lo, hi⟩ =
      limitToMondays (lo.map minMonday) (hi.map maxMonday) (d - (d + 3) % 7) := by
  simp only [adjustDateByPan, mondayFloor_eq]

/-! ## C1 -/

/-- C1: on a picker without minDate/maxDate, `adjustDateByPan` returns the anchor of the unit:
the date itself for pan `day` or no pan; for `week` the unique Monday `m` with `m ≤ d` and
`d - m < 7`; for `month` the first day of the month and year of `d`; for `year` 1 January of the
year of `d`.  For 10/28/2010, a Thursday, these are 10/28/2010, 10/25/2010, 10/1/2010 and
1/1/2010. -/
theorem C1_adjustDateByPan_anchor (d : Int) :
    adjustDateByPan d ⟨some Pan.day, none, none⟩ = d ∧
    adjustDateByPan d ⟨none, none, none⟩ = d ∧
    (getDay (adjustDateByPan d ⟨some Pan.week, none, none⟩) = 1 ∧
      adjustDateByPan d ⟨some Pan.week, none, none⟩ ≤ d ∧
      d - adjustDateByPan d ⟨some Pan.week, none, none⟩ < 7 ∧
      ∀ m : Int, getDay m = 1 → m ≤ d → d - m < 7 →
        m = adjustDateByPan d ⟨some Pan.week, none, none⟩) ∧
    (getFullYear (adjustDateByPan d ⟨some Pan.month, none, none⟩) = getFullYear d ∧
      getMonth (adjustDateByPan d ⟨some Pan.month, none, none⟩) = getMonth d ∧
      getDate (adjustDateByPan d ⟨some Pan.month, none, none⟩) = 1) ∧
    (getFullYear (adjustDateByPan d ⟨some Pan.year, none, none⟩) = getFullYear d ∧
      getMonth (adjustDateByPan d ⟨some Pan.year, none, none⟩) = 0 ∧
      getDate (adjustDateByPan d ⟨some Pan.year, none, none⟩) = 1) ∧
    (getDay (mdy 10 28 2010) = 4 ∧
      adjustDateByPan (mdy 10 28 2010) ⟨some Pan.day, none, none⟩ = mdy 10 28 2010 ∧
      adjustDateByPan (mdy 10 28 2010) ⟨some Pan.week, none, none⟩ = mdy 10 25 2010 ∧
      adjustDateByPan (mdy 10 28 2010) ⟨some Pan.month, none, none⟩ = mdy 10 1 2010 ∧
      adjustDateByPan (mdy 10 28 2010) ⟨some Pan.year, none, none⟩ = mdy 1 1 2010) := by
  refine ⟨rfl, rfl, ?_, ?_, ?_, ?_⟩
  · rw [adjustDateByPan_week]
    simp only [Option.map_none', limitToMondays]
    unfold getDay
    refine ⟨by omega, by omega, by omega, ?_⟩
    intro m h1 h2 h3
    omega
  · exact civil_setDate_one d
  · exact civil_january_first (YearFromDay d)
  · decide

/-- C1 at 10/28/2010: the Monday of its week is 10/25/2010, and no other Monday qualifies. -/
theorem C1_adjustDateByPan_anchor_witness :
    adjustDateByPan (mdy 10 28 2010) ⟨some Pan.week, none, none⟩ = mdy 10 25 2010 :=
  ((C1_adjustDateByPan_anchor (mdy 10 28 2010)).2.2.1.2.2.2 (mdy 10 25 2010)
    (by decide) (by decide) (by decide)).symm

/-! ## C2 -/

/-- A Monday between the bounds lies between the Monday limits computed from them. -/
theorem monday_limits_ordered {a b m : Int} (hm : getDay m = 1) (h1 : a ≤ m) (h2 : m ≤ b) :
    minMonday a ≤ m ∧ m ≤ maxMonday b := by
  obtain ⟨p1, p2, p3⟩ := minMonday_spec a
  obtain ⟨q1, q2, q3⟩ := maxMonday_spec b
  unfold getDay at hm
  omega

theorem limitToMondays_monday (lo hi : Option Int) (x : Int) (hx : (x + 3) % 7 = 0)
    (hlo : ∀ a, lo = some a → (a + 3) % 7 = 0) (hhi : ∀ b, hi = some b → (b + 3) % 7 = 0) :
    (limitToMondays lo hi x + 3) % 7 = 0 := by
  unfold limitToMondays
  cases lo with
  | none =>
    cases hi with
    | none => simpa using hx
    | some b =>
      have := hhi b rfl
      simp only
      split_ifs <;> assumption
  | some a =>
    have := hlo a rfl
    cases hi with
    | none =>
      simp only
      split_ifs <;> assumption
    | some b =>
      have := hhi b rfl
      simp only
      split_ifs <;> assumption

theorem limitToMondays_idem (lo hi : Option Int) (x : Int)
    (h : ∀ a b, lo = some a → hi = some b → a ≤ b) :
    limitToMondays lo hi (limitToMondays lo hi x) = limitToMondays lo hi x := by
  unfold limitToMondays
  cases lo with
  | none =>
    cases hi with
    | none => rfl
    | some b =>
      simp only
      split_ifs <;> omega
  | some a =>
    cases hi with
    | none =>
      simp only
      split_ifs <;> omega
    | some b =>
      have := h a b rfl rfl
      simp only
      split_ifs <;> omega

/-- C2 (counterexample): with minDate 3/3/2020 (a Tuesday) and maxDate 3/5/2020 (the Thursday after it), so that no
Monday lies between the bounds, normalising 3/4/2020 for the week unit gives 3/9/2020 and
normalising that again gives 3/2/2020: `adjustDateByPan` is not idempotent there. -/
theorem C2_not_idempotent_without_monday :
    mdy 3 3 2020 ≤ mdy 3 5 2020 ∧
    adjustDateByPan (mdy 3 4 2020) ⟨some Pan.week, some (mdy 3 3 2020), some (mdy 3 5 2020)⟩
      = mdy 3 9 2020 ∧
    adjustDateByPan (mdy 3 9 2020) ⟨some Pan.week, some (mdy 3 3 2020), some (mdy 3 5 2020)⟩
      = mdy 3 2 2020 ∧
    adjustDateByPan
        (adjustDateByPan (mdy 3 4 2020)
          ⟨some Pan.week, some (mdy 3 3 2020), some (mdy 3 5 2020)⟩)
        ⟨some Pan.week, some (mdy 3 3 2020), some (mdy 3 5 2020)⟩
      ≠ adjustDateByPan (mdy 3 4 2020)
          ⟨some Pan.week, some (mdy 3 3 2020), some (mdy 3 5 2020)⟩ := by
  decide

/-- C2 (amended): `adjustDateByPan` is idempotent for every date, every pan unit (or none) and
every minDate/maxDate, provided that for the week unit with both bounds set some Monday lies
between minDate and maxDate. -/
theorem C2_adjustDateByPan_idempotent (d : Int) (picker : Element)
    (h : ∀ a b, picker.pan = some Pan.week → picker.minDate = some a →
      picker.maxDate = some b → ∃ m, getDay m = 1 ∧ a ≤ m ∧ m ≤ b) :
    adjustDateByPan (adjustDateByPan d picker) picker = adjustDateByPan d picker := by
  obtain ⟨pan, lo, hi⟩ := picker
  cases pan with
  | none => rfl
  | some u =>
    cases u with
    | day => rfl
    | month =>
      obtain ⟨e1, e2, _⟩ := civil_setDate_one d
      show setDate (setDate d 1) 1 = setDate d 1
      unfold setDate at e1 e2 ⊢
      rw [e1, e2]
    | year =>
      obtain ⟨e1, _, _⟩ := civil_january_first (YearFromDay d)
      show setMonth2 (setMonth2 d 0 1) 0 1 = setMonth2 d 0 1
      unfold setMonth2
      rw [e1]
    | week =>
      rw [adjustDateByPan_week, adjustDateByPan_week]
      have hmon : (limitToMondays (lo.map minMonday) (hi.map maxMonday) (d - (d + 3) % 7) + 3) % 7
          = 0 := by
        apply limitToMondays_monday
        · omega
        · intro a ha
          obtain ⟨a0, _, rfl⟩ := Option.map_eq_some'.mp ha
          exact (minMonday_spec a0).1
        · intro b hb
          obtain ⟨b0, _, rfl⟩ := Option.map_eq_some'.mp hb
          exact (maxMonday_spec b0).1
      have e : ∀ x : Int, (x + 3) % 7 = 0 → x - (x + 3) % 7 = x := by
        intro x hx; omega
      rw [e _ hmon]
      apply limitToMondays_idem
      intro a b ha hb
      obtain ⟨a0, ha0, rfl⟩ := Option.map_eq_some'.mp ha
      obtain ⟨b0, hb0, rfl⟩ := Option.map_eq_some'.mp hb
      obtain ⟨m, m1, m2, m3⟩ := h a0 b0 rfl ha0 hb0
      have := monday_limits_ordered m1 m2 m3
      omega

/-- C2 (amended) at 3/4/2020 on a week picker bounded by 3/3/2020 and 3/31/2020, a range that
contains the Monday 3/9/2020. -/
theorem C2_adjustDateByPan_idempotent_witness :
    adjustDateByPan
        (adjustDateByPan (mdy 3 4 2020)
          ⟨some Pan.week, some (mdy 3 3 2020), some (mdy 3 31 2020)⟩)
        ⟨some Pan.week, some (mdy 3 3 2020), some (mdy 3 31 2020)⟩
      = adjustDateByPan (mdy 3 4 2020)
          ⟨some Pan.week, some (mdy 3 3 2020), some (mdy 3 31 2020)⟩ :=
  C2_adjustDateByPan_idempotent (mdy 3 4 2020)
    ⟨some Pan.week, some (mdy 3 3 2020), some (mdy 3 31 2020)⟩
    (fun a b _ ha hb => ⟨mdy 3 9 2020, by decide, by
      have ha1 : mdy 3 3 2020 = a := Option.some.inj ha
      have hb1 : mdy 3 31 2020 = b := Option.some.inj hb
      subst ha1 hb1
      decide⟩)

/-! ## C3 -/

theorem adjustDateByPan_panControl (d : Int) : adjustDateByPan d panControl = d := rfl

theorem panStepWith_eq (ctl picker : Element) (add : Bool) (d : Int) :
    panStepWith ctl picker add d =
      some (adjustDateByPan
        (panCase (picker.pan.getD Pan.day) add picker.minDate picker.maxDate d) ctl) := rfl

/-- In the source a pan step commits the result of the `switch` of `repeat` as it is: the call
`adjustDateByPan(date, $this)` reads no pan unit and no limits from the pan control. -/
theorem panStep_eq (picker : Element) (add : Bool) (d : Int) :
    panStep picker add d =
      some (panCase (picker.pan.getD Pan.day) add picker.minDate picker.maxDate d) := rfl

/-- C3 on the code: a year picker without limits that holds 10/28/2010 commits 10/28/2011 when
panned right and 10/28/2010 when panned back left, not 1/1/2010; from 2/29/2020 it commits
3/1/2021 and then 3/1/2020, not 1/1/2020.  The day picker of the claim goes from 10/28/2010 to
10/29/2010 and back. -/
theorem C3_year_pan_roundtrip_fails :
    (panStep ⟨some Pan.year, none, none⟩ true (mdy 10 28 2010) = some (mdy 10 28 2011) ∧
      panStep ⟨some Pan.year, none, none⟩ false (mdy 10 28 2011) = some (mdy 10 28 2010) ∧
      adjustDateByPan (mdy 10 28 2010) ⟨some Pan.year, none, none⟩ = mdy 1 1 2010 ∧
      panRightLeft panControl ⟨some Pan.year, none, none⟩ (mdy 10 28 2010)
        ≠ some (adjustDateByPan (mdy 10 28 2010) ⟨some Pan.year, none, none⟩)) ∧
    (panStep ⟨some Pan.year, none, none⟩ true (mdy 2 29 2020) = some (mdy 3 1 2021) ∧
      panStep ⟨some Pan.year, none, none⟩ false (mdy 3 1 2021) = some (mdy 3 1 2020) ∧
      adjustDateByPan (mdy 2 29 2020) ⟨some Pan.year, none, none⟩ = mdy 1 1 2020 ∧
      panRightLeft panControl ⟨some Pan.year, none, none⟩ (mdy 2 29 2020)
        ≠ some (adjustDateByPan (mdy 2 29 2020) ⟨some Pan.year, none, none⟩)) ∧
    (panStep ⟨some Pan.day, none, none⟩ true (mdy 10 28 2010) = some (mdy 10 29 2010) ∧
      panStep ⟨some Pan.day, none, none⟩ false (mdy 10 29 2010) = some (mdy 10 28 2010)) := by
  simp only [panStep_eq, panRightLeft, panStepWith_eq, adjustDateByPan_panControl]
  decide

theorem monthStart_bound (l k m dt : Int) (hl : 0 ≤ l) (hl1 : l ≤ 1) (hk : 0 ≤ k) (hk1 : k ≤ 1)
    (h0 : 0 ≤ m) (h1 : m ≤ 11) (h2 : 1 ≤ dt) (h3 : dt ≤ DaysInMonth l m) :
    0 ≤ monthStart k m + dt - 1 ∧ monthStart k m + dt - 1 < 365 + k := by
  have hm : m = 0 ∨ m = 1 ∨ m = 2 ∨ m = 3 ∨ m = 4 ∨ m = 5 ∨ m = 6 ∨ m = 7 ∨ m = 8 ∨ m = 9 ∨
      m = 10 ∨ m = 11 := by omega
  unfold DaysInMonth at h3
  unfold monthStart
  rcases hm with h | h | h | h | h | h | h | h | h | h | h | h <;> subst h <;>
  · repeat (first | rw [if_pos (by omega)] at h3 | rw [if_neg (by omega)] at h3)
    repeat (first | rw [if_pos (by omega)] | rw [if_neg (by omega)])
    omega

/-- The result of `setFullYear` lies in the requested year, also from 29 February. -/
theorem YearFromDay_setFullYear (d y : Int) : YearFromDay (setFullYear d y) = y := by
  obtain ⟨h0, h1⟩ := MonthFromDay_range d
  obtain ⟨h2, h3⟩ := DateFromDay_range d
  obtain ⟨l0, l1⟩ := InLeapYear_range (YearFromDay d)
  obtain ⟨k0, k1⟩ := InLeapYear_range y
  obtain ⟨b0, b1⟩ := monthStart_bound _ (InLeapYear y) _ _ l0 l1 k0 k1 h0 h1 h2 h3
  unfold setFullYear
  rw [MakeDay_of_month h0 h1]
  apply YearFromDay_unique
  · omega
  · rw [DayFromYear_succ, DaysInYear_eq]
    omega

theorem setFullYear_january_first (y z : Int) :
    setFullYear (MakeDay y 0 1) z = MakeDay z 0 1 := by
  obtain ⟨_, e2, e3⟩ := civil_january_first y
  unfold setFullYear
  rw [e2, e3]

/-- The day and week units round-trip in the source as it runs: a pan step right followed by a
pan step left commits the date itself (day, or no unit) or the Monday of its week (week). -/
theorem panStep_roundtrip_day_week (d : Int) :
    panRightLeft panControl ⟨some Pan.day, none, none⟩ d
      = some (adjustDateByPan d ⟨some Pan.day, none, none⟩) ∧
    panRightLeft panControl ⟨none, none, none⟩ d
      = some (adjustDateByPan d ⟨none, none, none⟩) ∧
    panRightLeft panControl ⟨some Pan.week, none, none⟩ d
      = some (adjustDateByPan d ⟨some Pan.week, none, none⟩) := by
  simp only [panRightLeft, panStepWith_eq, adjustDateByPan_panControl, Option.some_bind,
    Option.getD_some, Option.getD_none, adjustDateByPan_week, Option.map_none', limitToMondays,
    panCase, if_true, Bool.false_eq_true, if_false, setDate_getDate_add, setDate_getDate_sub,
    mondayFloor_eq]
  refine ⟨?_, ?_, ?_⟩
  · show some (d + 1 - 1) = some d
    refine congrArg some ?_
    omega
  · show some (d + 1 - 1) = some d
    refine congrArg some ?_
    omega
  · refine congrArg some ?_
    unfold getDay
    omega

/-- Had `repeat` handed the picker itself to `adjustDateByPan` (as `renderDatepickers` does),
a pan step right followed by a pan step left would commit `adjustDateByPan(d)` for the day, week
and year units and every date `d`, 29 February included. -/
theorem panRightLeft_with_picker (u : Pan) (hu : u ≠ Pan.month) (d : Int) :
    panRightLeft ⟨some u, none, none⟩ ⟨some u, none, none⟩ d
      = some (adjustDateByPan d ⟨some u, none, none⟩) := by
  cases u with
  | month => exact absurd rfl hu
  | day =>
    simp only [panRightLeft, panStepWith_eq, Option.some_bind, Option.getD_some, panCase,
      if_true, Bool.false_eq_true, if_false, setDate_getDate_add, setDate_getDate_sub]
    show some (d + 1 - 1) = some d
    refine congrArg some ?_
    omega
  | week =>
    simp only [panRightLeft, panStepWith_eq, Option.some_bind, Option.getD_some,
      adjustDateByPan_week, Option.map_none', limitToMondays, panCase, if_true,
      Bool.false_eq_true, if_false, setDate_getDate_add, setDate_getDate_sub, mondayFloor_eq]
    refine congrArg some ?_
    unfold getDay
    omega
  | year =>
    simp only [panRightLeft, panStepWith_eq, Option.some_bind, Option.getD_some, panCase,
      if_true, Bool.false_eq_true, if_false]
    show some (setMonth2 (setFullYear (setMonth2 (setFullYear d (getFullYear d + 1)) 0 1)
      (getFullYear (setMonth2 (setFullYear d (getFullYear d + 1)) 0 1) - 1)) 0 1)
      = some (setMonth2 d 0 1)
    refine congrArg some ?_
    unfold setMonth2 getFullYear
    rw [YearFromDay_setFullYear, (civil_january_first _).1, YearFromDay_setFullYear,
      add_sub_cancel_right]

/-- The round trip with the picker handed to `adjustDateByPan`, at the year unit. -/
theorem panRightLeft_with_picker_witness :
    panRightLeft ⟨some Pan.year, none, none⟩ ⟨some Pan.year, none, none⟩ (mdy 2 29 2020)
      = some (adjustDateByPan (mdy 2 29 2020) ⟨some Pan.year, none, none⟩) :=
  panRightLeft_with_picker Pan.year (by decide) (mdy 2 29 2020)

/-! ## Span reconciliation: C4, C5, C6, C7 -/

/-- The function `_daysBetween` gives the distance in days. -/
theorem daysBetween_eq (a b : Int) : daysBetween a b = |a - b| := by
  unfold daysBetween mathRound getTime oneDay
  rcases le_total b a with h | h
  · rw [abs_of_nonneg (by omega), abs_of_nonneg (by omega)]
    omega
  · rw [abs_of_nonpos (by omega), abs_of_nonpos (by omega)]
    omega

/-- The function `_dateFromOffset` moves a date by `offset` days. -/
theorem dateFromOffset_eq (d k : Int) : dateFromOffset d k = d + k :=
  setDate_getDate_add d k

/-- Lines 221-227 and 264-270: whether written or left alone, the counterpart holds the
reconciled value. -/
theorem counterpart_value (x t : Int) : (if getTime x ≠ getTime t then x else t) = x := by
  split_ifs with h
  · rfl
  · unfold getTime oneDay at h
    omega

theorem manageDateSpanStart_none (d t : Int) :
    manageDateSpanStart none d t = if d < t then d else t := by
  unfold manageDateSpanStart
  simp only [counterpart_value]

theorem manageDateSpanStart_some (m : Nat) (d t : Int) :
    manageDateSpanStart (some m) d t = if (m : Int) < |d - t| then d - m else if d < t then d else t := by
  unfold manageDateSpanStart
  simp only [counterpart_value, daysBetween_eq, dateFromOffset_eq, gt_iff_lt]
  split_ifs <;> first | rfl | omega

theorem manageDateSpanEnd_none (d t : Int) :
    manageDateSpanEnd none d t = if t < d then d else t := by
  unfold manageDateSpanEnd
  simp only [counterpart_value, gt_iff_lt]

theorem manageDateSpanEnd_some (m : Nat) (d t : Int) :
    manageDateSpanEnd (some m) d t = if (m : Int) < |d - t| then d + m else if t < d then d else t := by
  unfold manageDateSpanEnd
  simp only [counterpart_value, daysBetween_eq, dateFromOffset_eq, gt_iff_lt]
  split_ifs <;> first | rfl | omega

/-- C4: after the `data-datespanstart` branch the counterpart's value `t'` satisfies `t' ≤ d`;
with maxDaySpan `m` also `d - t' ≤ m`; without maxDaySpan `t' = min d t`, the counterpart being
set to the selected date exactly when the selected date is less than its value. -/
theorem C4_span_start (d t : Int) (m : Nat) :
    (manageDateSpanStart (some m) d t ≤ d ∧ d - manageDateSpanStart (some m) d t ≤ m) ∧
    (manageDateSpanStart none d t ≤ d ∧ manageDateSpanStart none d t = min d t ∧
      (manageDateSpanStart none d t = if d < t then d else t)) := by
  rw [manageDateSpanStart_some, manageDateSpanStart_none]
  refine ⟨?_, ?_, ?_, rfl⟩
  · split_ifs with h1 h2
    · omega
    · omega
    · rw [abs_of_nonneg (by omega)] at h1
      omega
  · split_ifs <;> omega
  · split_ifs with h
    · exact (min_eq_left h.le).symm
    · exact (min_eq_right (not_lt.mp h)).symm

/-- C5: after the `data-datespanend` branch the counterpart's value `t'` satisfies `d ≤ t'`;
with maxDaySpan `m` also `t' - d ≤ m`; without maxDaySpan `t' = max d t`.  For d = 3/10/2020 and
t = 3/5/2020 without maxDaySpan, `t'` is 3/10/2020. -/
theorem C5_span_end (d t : Int) (m : Nat) :
    (d ≤ manageDateSpanEnd (some m) d t ∧ manageDateSpanEnd (some m) d t - d ≤ m) ∧
    (d ≤ manageDateSpanEnd none d t ∧ manageDateSpanEnd none d t = max d t) ∧
    manageDateSpanEnd none (mdy 3 10 2020) (mdy 3 5 2020) = mdy 3 10 2020 := by
  rw [manageDateSpanEnd_some, manageDateSpanEnd_none]
  refine ⟨?_, ⟨?_, ?_⟩, by decide⟩
  · split_ifs with h1 h2
    · omega
    · omega
    · rw [abs_of_nonpos (by omega)] at h1
      omega
  · split_ifs <;> omega
  · split_ifs with h
    · exact (max_eq_left h.le).symm
    · exact (max_eq_right (not_lt.mp h)).symm

/-- C6 (counterexample): with no maxDaySpan, selected date 3/10/2020 and counterpart value
3/5/2020 (earlier than the selected date), the `data-datespanstart` branch leaves the counterpart
at 3/5/2020; it is not corrected to 3/10/2020. -/
theorem C6_earlier_counterpart_kept :
    mdy 3 5 2020 < mdy 3 10 2020 ∧
    manageDateSpanStart none (mdy 3 10 2020) (mdy 3 5 2020) = mdy 3 5 2020 ∧
    manageDateSpanStart none (mdy 3 10 2020) (mdy 3 5 2020) ≠ mdy 3 10 2020 := by
  decide

/-- C6 (amended): in the `data-datespanstart` branch without maxDaySpan, a counterpart value `t`
later than the selected date `d` is corrected to `d`, and a counterpart value earlier than `d` is
left as it is. -/
theorem C6_span_start_no_span (d t : Int) :
    (d < t → manageDateSpanStart none d t = d) ∧
    (t < d → manageDateSpanStart none d t = t) := by
  rw [manageDateSpanStart_none]
  constructor
  · intro h; rw [if_pos h]
  · intro h; rw [if_neg (by omega)]

/-- C6 (amended) at the dates 3/5/2020 and 3/10/2020, in both orders. -/
theorem C6_span_start_no_span_witness :
    manageDateSpanStart none (mdy 3 5 2020) (mdy 3 10 2020) = mdy 3 5 2020 ∧
    manageDateSpanStart none (mdy 3 10 2020) (mdy 3 5 2020) = mdy 3 5 2020 :=
  ⟨(C6_span_start_no_span (mdy 3 5 2020) (mdy 3 10 2020)).1 (by decide),
    (C6_span_start_no_span (mdy 3 10 2020) (mdy 3 5 2020)).2 (by decide)⟩

/-- C7 (counterexample): with maxDaySpan 5, selected date 3/10/2020 and counterpart value
3/20/2020, the `data-datespanstart` branch sets the counterpart to 3/5/2020, five days before the
selected date; it is not set to 3/15/2020. -/
theorem C7_clamped_below_selected :
    manageDateSpanStart (some 5) (mdy 3 10 2020) (mdy 3 20 2020) = mdy 3 5 2020 ∧
    manageDateSpanStart (some 5) (mdy 3 10 2020) (mdy 3 20 2020) ≠ mdy 3 10 2020 + 5 ∧
    mdy 3 10 2020 + 5 = mdy 3 15 2020 := by
  decide

/-- C7 (amended): in the `data-datespanstart` branch with maxDaySpan `m`, a counterpart value `t`
more than `m` days after the selected date `d` is corrected to `d - m` days. -/
theorem C7_span_start_max_span (d t : Int) (m : Nat) (h : (m : Int) < t - d) :
    manageDateSpanStart (some m) d t = d - m := by
  rw [manageDateSpanStart_some, if_pos]
  rw [abs_of_nonpos (by omega)]
  omega

/-- C7 (amended) at d = 3/10/2020, t = 3/20/2020, m = 5: the counterpart becomes 3/5/2020. -/
theorem C7_span_start_max_span_witness :
    manageDateSpanStart (some 5) (mdy 3 10 2020) (mdy 3 20 2020) = mdy 3 10 2020 - (5 : Nat) :=
  C7_span_start_max_span (mdy 3 10 2020) (mdy 3 20 2020) 5 (by decide)

/-! ## Hold-repeat: C8, C9 -/

theorem nextStart_of_gt (x : ℚ) (h : 75 < x) : nextStart x = x * (6 / 7) := by
  unfold nextStart minInterval
  rw [if_pos h]; ring

theorem nextStart_of_le (x : ℚ) (h : x ≤ 75) : nextStart x = x := by
  unfold nextStart minInterval
  rw [if_neg (not_lt.mpr h)]

theorem nextStart_le (x : ℚ) : nextStart x ≤ x := by
  rcases lt_or_le 75 x with h | h
  · rw [nextStart_of_gt x h]; linarith
  · rw [nextStart_of_le x h]

theorem nextStart_lt (x : ℚ) (h : 75 < x) : nextStart x < x := by
  rw [nextStart_of_gt x h]; linarith

/-- While a date is held, the call number `n + 1` of `repeat` during one press hands
`nextStart^[n] 500` to `setTimeout` and leaves `start` at `nextStart^[n + 1] 500`. -/
theorem hold_state (ctl picker : Element) (add : Bool) (d : Int) (n : Nat) :
    ∃ v, hold ctl picker add (some d) n
      = ⟨some v, nextStart^[n + 1] 500, some (nextStart^[n] 500)⟩ := by
  induction n with
  | zero =>
    refine ⟨adjustDateByPan
      (panCase (picker.pan.getD Pan.day) add picker.minDate picker.maxDate d) ctl, ?_⟩
    show mousedown ctl picker add (some d) = _
    simp only [mousedown, repeatCall, Option.map_some', delayArg, ite_self,
      Function.iterate_succ_apply', Function.iterate_zero, id]
  | succ k ih =>
    obtain ⟨v, hv⟩ := ih
    refine ⟨adjustDateByPan
      (panCase (picker.pan.getD Pan.day) add picker.minDate picker.maxDate v) ctl, ?_⟩
    show timerFire ctl picker add (hold ctl picker add (some d) k) = _
    rw [hv]
    simp only [timerFire, repeatCall, Option.map_some', delayArg, Function.iterate_succ_apply']

theorem hold_scheduled (ctl picker : Element) (add : Bool) (d : Int) (n : Nat) :
    (hold ctl picker add (some d) n).scheduled = some (nextStart^[n] 500) := by
  obtain ⟨v, hv⟩ := hold_state ctl picker add d n
  rw [hv]

/-- The scheduled delay stays above six sevenths of `minInterval`. -/
theorem nextStart_iterate_gt (n : Nat) : (450 / 7 : ℚ) < nextStart^[n] 500 := by
  induction n with
  | zero => norm_num
  | succ k ih =>
    rw [Function.iterate_succ_apply']
    rcases lt_or_le 75 (nextStart^[k] 500) with h | h
    · rw [nextStart_of_gt _ h]; linarith
    · rw [nextStart_of_le _ h]; exact ih

/-- From the 14th call on, `start` rests at `500 * (6/7)^13`. -/
theorem nextStart_iterate_rest (n : Nat) : nextStart^[13 + n] 500 = 500 * (6 / 7) ^ 13 := by
  induction n with
  | zero =>
    simp only [Function.iterate_succ, Function.iterate_zero, Function.comp_apply, id, add_zero]
    norm_num [nextStart, minInterval]
  | succ k ih =>
    rw [← add_assoc, Function.iterate_succ_apply', ih]
    exact nextStart_of_le _ (by norm_num)

/-- C8 on the code: with the button held on a picker that has a date, the 14th call of `repeat`
and every call after it hand `500 * (6/7)^13` ms, about 67.4 ms, to `setTimeout`, which is below
75 ms. -/
theorem C8_delay_below_minInterval (ctl picker : Element) (add : Bool) (d : Int) (n : Nat) :
    (hold ctl picker add (some d) (13 + n)).scheduled = some (500 * (6 / 7) ^ 13) ∧
    (500 * (6 / 7) ^ 13 : ℚ) < 75 := by
  rw [hold_scheduled, nextStart_iterate_rest]
  exact ⟨rfl, by norm_num⟩

/-- C9: during one press on a picker that has a date, the first delay scheduled is 500 ms; each
of the next three calls schedules a strictly smaller delay than the call before it; a delay
above 75 ms is always followed by a strictly smaller one; and no delay exceeds the one before
it. -/
theorem C9_delays_decrease (ctl picker : Element) (add : Bool) (d : Int) :
    (hold ctl picker add (some d) 0).scheduled = some 500 ∧
    (∃ a b c : ℚ, (hold ctl picker add (some d) 1).scheduled = some a ∧
      (hold ctl picker add (some d) 2).scheduled = some b ∧
      (hold ctl picker add (some d) 3).scheduled = some c ∧ a < 500 ∧ b < a ∧ c < b) ∧
    (∀ n : Nat, ∃ a b : ℚ, (hold ctl picker add (some d) n).scheduled = some a ∧
      (hold ctl picker add (some d) (n + 1)).scheduled = some b ∧ b ≤ a ∧ (75 < a → b < a)) := by
  refine ⟨hold_scheduled ctl picker add d 0, ?_, ?_⟩
  · refine ⟨_, _, _, hold_scheduled ctl picker add d 1, hold_scheduled ctl picker add d 2,
      hold_scheduled ctl picker add d 3, ?_, ?_, ?_⟩ <;>
    · simp only [Function.iterate_succ, Function.iterate_zero, Function.comp_apply, id]
      norm_num [nextStart, minInterval]
  · intro n
    refine ⟨_, _, hold_scheduled ctl picker add d n, hold_scheduled ctl picker add d (n + 1),
      ?_, ?_⟩
    · rw [Function.iterate_succ_apply']
      exact nextStart_le _
    · intro h
      rw [Function.iterate_succ_apply']
      exact nextStart_lt _ h

/-! ## Week panning between limits: C10 -/

/-- C10 on the code: a week picker limited to 3/4/2020 (a Wednesday) .. 3/31/2020 holds
3/5/2020 (a Thursday inside the limits, whose Monday is 3/2/2020).  The first and last Monday
inside the limits are 3/9/2020 and 3/30/2020, so the clamp of the candidate 2/24/2020 is
3/9/2020.  A pan step left hands 3/2/2020 to `setDate`: a date before minDate, not 3/9/2020. -/
theorem C10_week_pan_left_not_clamped :
    (getDay (mdy 3 4 2020) = 3 ∧ getDay (mdy 3 5 2020) = 4 ∧
      mdy 3 4 2020 ≤ mdy 3 5 2020 ∧ mdy 3 5 2020 ≤ mdy 3 31 2020) ∧
    (minMonday (mdy 3 4 2020) = mdy 3 9 2020 ∧ maxMonday (mdy 3 31 2020) = mdy 3 30 2020 ∧
      adjustDateByPan (mdy 3 5 2020) ⟨some Pan.week, none, none⟩ = mdy 3 2 2020 ∧
      clamp (mdy 3 2 2020 - 7) (mdy 3 9 2020) (mdy 3 30 2020) = mdy 3 9 2020) ∧
    (panStep ⟨some Pan.week, some (mdy 3 4 2020), some (mdy 3 31 2020)⟩ false (mdy 3 5 2020)
        = some (mdy 3 2 2020) ∧
      mdy 3 2 2020 < mdy 3 4 2020 ∧ mdy 3 2 2020 ≠ mdy 3 9 2020) := by
  simp only [panStep_eq]
  decide

/-- In the source as it runs, a week pan step agrees with the clamp whenever the Monday of the
current date lies between the first and the last Monday inside the limits. -/
theorem panStep_week_of_monday_in_range (d a b : Int) (add : Bool)
    (h1 : minMonday a ≤ d - (d + 3) % 7) (h2 : d - (d + 3) % 7 ≤ maxMonday b) :
    panStep ⟨some Pan.week, some a, some b⟩ add d
      = some (clamp (d - (d + 3) % 7 + (if add then 7 else -7)) (minMonday a) (maxMonday b)) := by
  obtain ⟨p1, p2, p3⟩ := minMonday_spec a
  obtain ⟨q1, q2, q3⟩ := maxMonday_spec b
  rw [panStep_eq]
  refine congrArg some ?_
  cases add
  · simp only [Option.getD_some, panCase, Bool.false_eq_true, if_false, setDate_getDate_sub,
      clamp]
    unfold getDay
    split_ifs <;> omega
  · simp only [Option.getD_some, panCase, if_true, setDate_getDate_sub, setDate_getDate_add,
      clamp, gt_iff_lt]
    unfold getDay
    split_ifs <;> omega

theorem panStep_week_of_monday_in_range_witness :
    panStep ⟨some Pan.week, some (mdy 3 4 2020), some (mdy 3 31 2020)⟩ true (mdy 3 31 2020)
      = some (clamp (mdy 3 31 2020 - (mdy 3 31 2020 + 3) % 7 + (if true then 7 else -7))
          (minMonday (mdy 3 4 2020)) (maxMonday (mdy 3 31 2020))) :=
  panStep_week_of_monday_in_range (mdy 3 31 2020) (mdy 3 4 2020) (mdy 3 31 2020) true
    (by decide) (by decide)

/-- Had `repeat` handed the picker itself to `adjustDateByPan`, a week pan step between limits
that contain a Monday would commit the clamp of the Monday of the current date plus or minus
seven days to the first and last Monday inside the limits, for every current date. -/
theorem panStepWith_picker_week (d a b : Int) (add : Bool)
    (h : ∃ m, getDay m = 1 ∧ a ≤ m ∧ m ≤ b) :
    panStepWith ⟨some Pan.week, some a, some b⟩ ⟨some Pan.week, some a, some b⟩ add d
      = some (clamp (d - (d + 3) % 7 + (if add then 7 else -7)) (minMonday a) (maxMonday b)) := by
  obtain ⟨m, m1, m2, m3⟩ := h
  obtain ⟨r1, r2⟩ := monday_limits_ordered m1 m2 m3
  obtain ⟨p1, p2, p3⟩ := minMonday_spec a
  obtain ⟨q1, q2, q3⟩ := maxMonday_spec b
  rw [panStepWith_eq]
  refine congrArg some ?_
  rw [adjustDateByPan_week]
  cases add
  · simp only [Option.getD_some, panCase, Bool.false_eq_true, if_false, setDate_getDate_sub,
      clamp, Option.map_some', limitToMondays, gt_iff_lt]
    unfold getDay
    split_ifs <;> omega
  · simp only [Option.getD_some, panCase, if_true, setDate_getDate_sub, setDate_getDate_add,
      clamp, Option.map_some', limitToMondays, gt_iff_lt]
    unfold getDay
    split_ifs <;> omega

theorem panStepWith_picker_week_witness :
    panStepWith ⟨some Pan.week, some (mdy 3 4 2020), some (mdy 3 31 2020)⟩
        ⟨some Pan.week, some (mdy 3 4 2020), some (mdy 3 31 2020)⟩ false (mdy 3 5 2020)
      = some (clamp (mdy 3 5 2020 - (mdy 3 5 2020 + 3) % 7 + (if false then 7 else -7))
          (minMonday (mdy 3 4 2020)) (maxMonday (mdy 3 31 2020))) :=
  panStepWith_picker_week (mdy 3 5 2020) (mdy 3 4 2020) (mdy 3 31 2020) false
    ⟨mdy 3 9 2020, by decide, by decide, by decide⟩

/-! ## Month panning: C11, C12 -/

/-- Months outside 0 .. 11 roll over into the neighbouring years. -/
theorem MakeDay_norm (y m dt : Int) : MakeDay y m dt = MakeDay (y + m / 12) (m % 12) dt := by
  unfold MakeDay
  have e1 : m % 12 / 12 = 0 := by omega
  have e2 : m % 12 % 12 = m % 12 := by omega
  simp only [e1, e2, add_zero]

theorem DaysInMonth_31 (l m : Int) (h : m = 0 ∨ m = 2 ∨ m = 4 ∨ m = 6 ∨ m = 7 ∨ m = 9 ∨ m = 11) :
    DaysInMonth l m = 31 := by
  unfold DaysInMonth
  rw [if_neg (by omega), if_neg (by omega)]

/-- The calendar fields of 31 January. -/
theorem civil_january_31 (y : Int) :
    YearFromDay (mdy 1 31 y) = y ∧ MonthFromDay (mdy 1 31 y) = 0 ∧ DateFromDay (mdy 1 31 y) = 31 := by
  have h := DaysInMonth_31 (InLeapYear y) 0 (Or.inl rfl)
  exact @civil_MakeDay y (1 - 1) 31 (by omega) (by omega) (by omega)
    (by rw [show (1 - 1 : Int) = 0 from rfl, h])

/-- Setting the month of 31 January to February rolls over into March: to 3 March, or 2 March in
a leap year. -/
theorem setMonth_january_31 (y : Int) :
    setMonth (mdy 1 31 y) (getMonth (mdy 1 31 y) + 1) = mdy 3 (3 - InLeapYear y) y := by
  obtain ⟨e1, e2, e3⟩ := civil_january_31 y
  unfold setMonth getMonth
  rw [e1, e2, e3]
  unfold mdy
  rw [MakeDay_of_month (by omega) (by omega), MakeDay_of_month (by omega) (by omega)]
  have a1 : monthStart (InLeapYear y) (0 + 1) = 31 := rfl
  have a2 : monthStart (InLeapYear y) (3 - 1) = 59 + InLeapYear y := rfl
  rw [a1, a2]
  omega

/-- The calendar fields of the day in March on which the step right from 31 January lands. -/
theorem civil_march_rollover (y : Int) :
    YearFromDay (mdy 3 (3 - InLeapYear y) y) = y ∧ MonthFromDay (mdy 3 (3 - InLeapYear y) y) = 2 ∧
      DateFromDay (mdy 3 (3 - InLeapYear y) y) = 3 - InLeapYear y := by
  obtain ⟨l0, l1⟩ := InLeapYear_range y
  have h := DaysInMonth_31 (InLeapYear y) 2 (Or.inr (Or.inl rfl))
  exact @civil_MakeDay y (3 - 1) (3 - InLeapYear y) (by omega) (by omega)
    (by omega) (by rw [show (3 - 1 : Int) = 2 from rfl, h]; omega)

theorem mdy_lt_of_day_lt {m a b y : Int} (h0 : 1 ≤ m) (h1 : m ≤ 12) (h : a < b) :
    mdy m a y < mdy m b y := by
  unfold mdy
  rw [MakeDay_of_month (by omega) (by omega), MakeDay_of_month (by omega) (by omega)]
  omega

/-- C11 on the code: on a month picker without limits that holds 31 January of year `y`, the pan
step right commits 3 March (2 March in a leap year), not 1 March, and the pan step left from
there commits 3 February (2 February in a leap year), not 1 February; the round trip does not
return to 1 January.  In 2021 the steps commit 3/3/2021 and 2/3/2021, in 2020 3/2/2020 and
2/2/2020. -/
theorem C11_january_31_month_pan (y : Int) :
    (panStep ⟨some Pan.month, none, none⟩ true (mdy 1 31 y)
        = some (mdy 3 (3 - InLeapYear y) y) ∧
      panStep ⟨some Pan.month, none, none⟩ false (mdy 3 (3 - InLeapYear y) y)
        = some (mdy 2 (3 - InLeapYear y) y) ∧
      panRightLeft panControl ⟨some Pan.month, none, none⟩ (mdy 1 31 y)
        = some (mdy 2 (3 - InLeapYear y) y)) ∧
    (mdy 3 1 y < mdy 3 (3 - InLeapYear y) y ∧ mdy 2 1 y < mdy 2 (3 - InLeapYear y) y) ∧
    (panStep ⟨some Pan.month, none, none⟩ true (mdy 1 31 2021) = some (mdy 3 3 2021) ∧
      panStep ⟨some Pan.month, none, none⟩ false (mdy 3 3 2021) = some (mdy 2 3 2021) ∧
      panStep ⟨some Pan.month, none, none⟩ true (mdy 1 31 2020) = some (mdy 3 2 2020) ∧
      panStep ⟨some Pan.month, none, none⟩ false (mdy 3 2 2020) = some (mdy 2 2 2020)) := by
  obtain ⟨l0, l1⟩ := InLeapYear_range y
  obtain ⟨e1, e2, e3⟩ := civil_march_rollover y
  have right : panStep ⟨some Pan.month, none, none⟩ true (mdy 1 31 y)
      = some (mdy 3 (3 - InLeapYear y) y) := by
    rw [panStep_eq]
    exact congrArg some (setMonth_january_31 y)
  have left : panStep ⟨some Pan.month, none, none⟩ false (mdy 3 (3 - InLeapYear y) y)
      = some (mdy 2 (3 - InLeapYear y) y) := by
    rw [panStep_eq]
    refine congrArg some ?_
    show setMonth (mdy 3 (3 - InLeapYear y) y) (getMonth (mdy 3 (3 - InLeapYear y) y) - 1)
      = mdy 2 (3 - InLeapYear y) y
    unfold setMonth getMonth
    rw [e1, e2, e3]
    rfl
  refine ⟨⟨right, left, ?_⟩, ⟨?_, ?_⟩, ?_⟩
  · show (panStep ⟨some Pan.month, none, none⟩ true (mdy 1 31 y)).bind
      (panStep ⟨some Pan.month, none, none⟩ false) = _
    rw [right, Option.some_bind, left]
  · exact mdy_lt_of_day_lt (by omega) (by omega) (by omega)
  · exact mdy_lt_of_day_lt (by omega) (by omega) (by omega)
  · simp only [panStep_eq]
    decide

/-- Had `repeat` handed the picker itself to `adjustDateByPan`, the step right from 31 January on
a month picker without limits would commit 1 March and the step left from there 1 February,
which is not 1 January, the normalised 31 January. -/
theorem panStepWith_picker_january_31 (y : Int) :
    panStepWith ⟨some Pan.month, none, none⟩ ⟨some Pan.month, none, none⟩ true (mdy 1 31 y)
      = some (mdy 3 1 y) ∧
    panStepWith ⟨some Pan.month, none, none⟩ ⟨some Pan.month, none, none⟩ false (mdy 3 1 y)
      = some (mdy 2 1 y) ∧
    adjustDateByPan (mdy 1 31 y) ⟨some Pan.month, none, none⟩ = mdy 1 1 y ∧
    mdy 1 1 y < mdy 2 1 y := by
  obtain ⟨e1, e2, e3⟩ := civil_march_rollover y
  obtain ⟨j1, j2, j3⟩ := civil_january_31 y
  have m1 : YearFromDay (mdy 3 1 y) = y ∧ MonthFromDay (mdy 3 1 y) = 3 - 1 ∧
      DateFromDay (mdy 3 1 y) = 1 :=
    civil_mdy (by omega) (by omega) le_rfl
      (by have := DaysInMonth_ge (InLeapYear y) (3 - 1) (InLeapYear_range y).1; omega)
  have f1 : YearFromDay (mdy 2 1 y) = y ∧ MonthFromDay (mdy 2 1 y) = 2 - 1 ∧
      DateFromDay (mdy 2 1 y) = 1 :=
    civil_mdy (by omega) (by omega) le_rfl
      (by have := DaysInMonth_ge (InLeapYear y) (2 - 1) (InLeapYear_range y).1; omega)
  refine ⟨?_, ?_, ?_, ?_⟩
  · rw [panStepWith_eq]
    refine congrArg some ?_
    show setDate (setMonth (mdy 1 31 y) (getMonth (mdy 1 31 y) + 1)) 1 = mdy 3 1 y
    rw [setMonth_january_31]
    unfold setDate
    rw [e1, e2]
    rfl
  · rw [panStepWith_eq]
    refine congrArg some ?_
    show setDate (setMonth (mdy 3 1 y) (getMonth (mdy 3 1 y) - 1)) 1 = mdy 2 1 y
    unfold setMonth getMonth
    rw [m1.1, m1.2.1, m1.2.2]
    show setDate (mdy 2 1 y) 1 = mdy 2 1 y
    unfold setDate
    rw [f1.1, f1.2.1]
    rfl
  · show setDate (mdy 1 31 y) 1 = mdy 1 1 y
    unfold setDate
    rw [j1, j2]
    rfl
  · unfold mdy
    rw [MakeDay_of_month (by omega) (by omega), MakeDay_of_month (by omega) (by omega)]
    have a1 : monthStart (InLeapYear y) (1 - 1) = 0 := rfl
    have a2 : monthStart (InLeapYear y) (2 - 1) = 31 := rfl
    rw [a1, a2]
    omega

/-- The calendar fields of the first day of month `m` of year `y`, for any integer `m`: the
month rolls over into the following or preceding years. -/
theorem civil_first_of_month (y m : Int) :
    YearFromDay (MakeDay y m 1) = y + m / 12 ∧ MonthFromDay (MakeDay y m 1) = m % 12 ∧
      DateFromDay (MakeDay y m 1) = 1 := by
  rw [MakeDay_norm]
  have := DaysInMonth_ge (InLeapYear (y + m / 12)) (m % 12) (InLeapYear_range _).1
  exact civil_MakeDay (by omega) (by omega) le_rfl (by omega)

/-- C12: on a month picker that holds the first day of a month, a pan step right commits the
first day of the following calendar month (from December: January of the next year), a pan step
left commits the first day of the preceding calendar month (from January: December of the
previous year), and right followed by left returns the date. -/
theorem C12_month_pan_first_of_month (lo hi : Option Int) (d : Int) (h : getDate d = 1) :
    (∃ r, panStep ⟨some Pan.month, lo, hi⟩ true d = some r ∧ getDate r = 1 ∧
      getFullYear r = (if getMonth d = 11 then getFullYear d + 1 else getFullYear d) ∧
      getMonth r = (if getMonth d = 11 then 0 else getMonth d + 1)) ∧
    (∃ r, panStep ⟨some Pan.month, lo, hi⟩ false d = some r ∧ getDate r = 1 ∧
      getFullYear r = (if getMonth d = 0 then getFullYear d - 1 else getFullYear d) ∧
      getMonth r = (if getMonth d = 0 then 11 else getMonth d - 1)) ∧
    panRightLeft panControl ⟨some Pan.month, lo, hi⟩ d = some d := by
  obtain ⟨m0, m1⟩ := MonthFromDay_range d
  have hd : DateFromDay d = 1 := h
  have right : panStep ⟨some Pan.month, lo, hi⟩ true d
      = some (MakeDay (YearFromDay d) (MonthFromDay d + 1) 1) := by
    rw [panStep_eq]
    refine congrArg some ?_
    show setMonth d (getMonth d + 1) = _
    unfold setMonth getMonth
    rw [hd]
  have left : ∀ x : Int, panStep ⟨some Pan.month, lo, hi⟩ false x
      = some (MakeDay (YearFromDay x) (MonthFromDay x - 1) (DateFromDay x)) := by
    intro x
    rw [panStep_eq]
    rfl
  obtain ⟨r1, r2, r3⟩ := civil_first_of_month (YearFromDay d) (MonthFromDay d + 1)
  obtain ⟨s1, s2, s3⟩ := civil_first_of_month (YearFromDay d) (MonthFromDay d - 1)
  refine ⟨⟨_, right, r3, ?_, ?_⟩, ⟨_, ?_, s3, ?_, ?_⟩, ?_⟩
  · unfold getFullYear getMonth
    rw [r1]
    omega
  · unfold getMonth
    rw [r2]
    omega
  · rw [left, hd]
  · unfold getFullYear getMonth
    rw [s1]
    omega
  · unfold getMonth
    rw [s2]
    omega
  · show (panStep ⟨some Pan.month, lo, hi⟩ true d).bind
      (panStep ⟨some Pan.month, lo, hi⟩ false) = some d
    rw [right, Option.some_bind, left, r1, r2, r3, MakeDay_norm]
    have a1 : YearFromDay d + (MonthFromDay d + 1) / 12 + ((MonthFromDay d + 1) % 12 - 1) / 12
        = YearFromDay d := by omega
    have a2 : ((MonthFromDay d + 1) % 12 - 1) % 12 = MonthFromDay d := by omega
    rw [a1, a2, ← hd, MakeDay_civil]

/-- C12 at 12/1/2020: right commits 1/1/2021, left commits 11/1/2020. -/
theorem C12_month_pan_first_of_month_witness :
    getDate (mdy 12 1 2020) = 1 ∧
    ((∃ r, panStep ⟨some Pan.month, none, none⟩ true (mdy 12 1 2020) = some r ∧ getDate r = 1 ∧
      getFullYear r = (if getMonth (mdy 12 1 2020) = 11 then getFullYear (mdy 12 1 2020) + 1
        else getFullYear (mdy 12 1 2020)) ∧
      getMonth r = (if getMonth (mdy 12 1 2020) = 11 then 0 else getMonth (mdy 12 1 2020) + 1)) ∧
    (∃ r, panStep ⟨some Pan.month, none, none⟩ false (mdy 12 1 2020) = some r ∧ getDate r = 1 ∧
      getFullYear r = (if getMonth (mdy 12 1 2020) = 0 then getFullYear (mdy 12 1 2020) - 1
        else getFullYear (mdy 12 1 2020)) ∧
      getMonth r = (if getMonth (mdy 12 1 2020) = 0 then 11 else getMonth (mdy 12 1 2020) - 1)) ∧
    panRightLeft panControl ⟨some Pan.month, none, none⟩ (mdy 12 1 2020)
      = some (mdy 12 1 2020)) :=
  ⟨by decide, C12_month_pan_first_of_month none none (mdy 12 1 2020) (by decide)⟩

/-- Month panning across the turn of the year: from 12/1/2020 right to 1/1/2021 and from there
left back to 12/1/2020. -/
theorem panStep_month_turn_of_year :
    panStep ⟨some Pan.month, none, none⟩ true (mdy 12 1 2020) = some (mdy 1 1 2021) ∧
    panStep ⟨some Pan.month, none, none⟩ false (mdy 1 1 2021) = some (mdy 12 1 2020) := by
  simp only [panStep_eq]
  decide

/-! ## Week normalisation between limits: C13 -/

/-- C13 (counterexample): with minDate 3/3/2020 (a Tuesday) and maxDate 3/5/2020 (the Thursday
after it) no Monday lies between the limits; `adjustDateByPan` sends 3/4/2020 to the Monday
3/9/2020, after maxDate, and 3/10/2020 to the Monday 3/2/2020, before minDate. -/
theorem C13_no_monday_between_limits :
    mdy 3 3 2020 ≤ mdy 3 5 2020 ∧
    adjustDateByPan (mdy 3 4 2020) ⟨some Pan.week, some (mdy 3 3 2020), some (mdy 3 5 2020)⟩
      = mdy 3 9 2020 ∧
    ¬ mdy 3 9 2020 ≤ mdy 3 5 2020 ∧
    adjustDateByPan (mdy 3 10 2020) ⟨some Pan.week, some (mdy 3 3 2020), some (mdy 3 5 2020)⟩
      = mdy 3 2 2020 ∧
    ¬ mdy 3 3 2020 ≤ mdy 3 2 2020 := by
  decide

/-- C13 (amended): for a week picker whose limits, when both are set, have a Monday between
them, `adjustDateByPan` returns a Monday that is not before minDate (when set) and not after
maxDate (when set); a date whose Monday is before the first Monday allowed is set to that first
Monday, and one whose Monday is after the last Monday allowed is set to that last Monday. -/
theorem C13_week_within_limits (d : Int) (lo hi : Option Int)
    (h : ∀ a b, lo = some a → hi = some b → ∃ m, getDay m = 1 ∧ a ≤ m ∧ m ≤ b) :
    getDay (adjustDateByPan d ⟨some Pan.week, lo, hi⟩) = 1 ∧
    (∀ a, lo = some a → a ≤ adjustDateByPan d ⟨some Pan.week, lo, hi⟩) ∧
    (∀ b, hi = some b → adjustDateByPan d ⟨some Pan.week, lo, hi⟩ ≤ b) ∧
    (∀ a, lo = some a → adjustDateByPan d ⟨some Pan.week, none, none⟩ < minMonday a →
      adjustDateByPan d ⟨some Pan.week, lo, hi⟩ = minMonday a) ∧
    (∀ b, hi = some b → maxMonday b < adjustDateByPan d ⟨some Pan.week, none, none⟩ →
      adjustDateByPan d ⟨some Pan.week, lo, hi⟩ = maxMonday b) := by
  have e0 : adjustDateByPan d ⟨some Pan.week, none, none⟩ = d - (d + 3) % 7 := by
    rw [adjustDateByPan_week]; rfl
  rw [adjustDateByPan_week, e0]
  unfold getDay
  cases lo with
  | none =>
    cases hi with
    | none =>
      simp only [Option.map_none', limitToMondays]
      refine ⟨by omega, ?_, ?_, ?_, ?_⟩ <;> intro x hx <;> cases hx
    | some b =>
      obtain ⟨q1, q2, q3⟩ := maxMonday_spec b
      simp only [Option.map_none', Option.map_some', limitToMondays, gt_iff_lt]
      refine ⟨?_, ?_, ?_, ?_, ?_⟩
      · split_ifs <;> omega
      · intro x hx; cases hx
      · intro x hx; cases hx; split_ifs <;> omega
      · intro x hx; cases hx
      · intro x hx hlt; cases hx; rw [if_pos hlt]
  | some a =>
    obtain ⟨p1, p2, p3⟩ := minMonday_spec a
    cases hi with
    | none =>
      simp only [Option.map_none', Option.map_some', limitToMondays]
      refine ⟨?_, ?_, ?_, ?_, ?_⟩
      · split_ifs <;> omega
      · intro x hx; cases hx; split_ifs <;> omega
      · intro x hx; cases hx
      · intro x hx hlt; cases hx; rw [if_pos hlt]
      · intro x hx; cases hx
    | some b =>
      obtain ⟨q1, q2, q3⟩ := maxMonday_spec b
      obtain ⟨m, m1, m2, m3⟩ := h a b rfl rfl
      obtain ⟨r1, r2⟩ := monday_limits_ordered m1 m2 m3
      simp only [Option.map_some', limitToMondays, gt_iff_lt]
      refine ⟨?_, ?_, ?_, ?_, ?_⟩
      · split_ifs <;> omega
      · intro x hx; cases hx; split_ifs <;> omega
      · intro x hx; cases hx; split_ifs <;> omega
      · intro x hx hlt; cases hx; rw [if_pos hlt]
      · intro x hx hlt; cases hx; rw [if_neg (by omega), if_pos hlt]

/-- C13 (amended) at 3/4/2020 on a week picker limited to 3/3/2020 .. 3/31/2020: the Monday of
3/4/2020 is 3/2/2020, before minDate, and the date is set to 3/9/2020. -/
theorem C13_week_within_limits_witness :
    adjustDateByPan (mdy 3 4 2020) ⟨some Pan.week, some (mdy 3 3 2020), some (mdy 3 31 2020)⟩
      = minMonday (mdy 3 3 2020) ∧
    minMonday (mdy 3 3 2020) = mdy 3 9 2020 :=
  ⟨(C13_week_within_limits (mdy 3 4 2020) (some (mdy 3 3 2020)) (some (mdy 3 31 2020))
      (fun a b ha hb => ⟨mdy 3 9 2020, by decide, by
        have ha1 : mdy 3 3 2020 = a := Option.some.inj ha
        have hb1 : mdy 3 31 2020 = b := Option.some.inj hb
        subst ha1 hb1
        decide⟩)).2.2.2.1 (mdy 3 3 2020) rfl (by decide),
    by decide⟩

/-! ## Linked pickers: C14 -/

theorem manageDateSpanStart_eq (s : Option Nat) (d t : Int) :
    manageDateSpanStart s d t =
      match s with
      | some m => if (m : Int) < d - t ∨ (m : Int) < t - d then d - m else if d < t then d else t
      | none => if d < t then d else t := by
  cases s with
  | none => exact manageDateSpanStart_none d t
  | some m =>
    rw [manageDateSpanStart_some]
    simp only [lt_abs, neg_sub]

theorem manageDateSpanEnd_eq (s : Option Nat) (d t : Int) :
    manageDateSpanEnd s d t =
      match s with
      | some m => if (m : Int) < d - t ∨ (m : Int) < t - d then d + m else if t < d then d else t
      | none => if t < d then d else t := by
  cases s with
  | none => exact manageDateSpanEnd_none d t
  | some m =>
    rw [manageDateSpanEnd_some]
    simp only [lt_abs, neg_sub]

/-- On the values the pickers hold: after A's correction of B and B's correction of A, A's
correction of the value B then holds changes nothing.  (The handler of A does not read that
value but what B's display field shows, see `cascade`.) -/
theorem third_correction_idle (spanA spanB : Option Nat) (a b : Int) :
    manageDateSpanStart spanA
        (manageDateSpanEnd spanB (manageDateSpanStart spanA a b) a)
        (manageDateSpanStart spanA a b)
      = manageDateSpanStart spanA a b := by
  simp only [manageDateSpanStart_eq, manageDateSpanEnd_eq]
  cases spanA <;> cases spanB <;> simp only <;> split_ifs <;> omega

/-- A's correction of B is idle on its own result. -/
theorem manageDateSpanStart_idem (spanA : Option Nat) (a b : Int) :
    manageDateSpanStart spanA a (manageDateSpanStart spanA a b) = manageDateSpanStart spanA a b := by
  simp only [manageDateSpanStart_eq]
  cases spanA <;> simp only <;> split_ifs <;> omega

theorem cascade_zero (spanA spanB : Option Nat) (turn : Bool) (s : Pickers) :
    cascade spanA spanB 0 turn s = none := by
  cases turn <;> rfl

/-- A run of A's handler. -/
theorem cascade_A (spanA spanB : Option Nat) (fuel : Nat) (x u y v : Int) :
    cascade spanA spanB (fuel + 1) true ⟨x, u, y, v⟩ =
      if manageDateSpanStart spanA x v ≠ v then
        (cascade spanA spanB fuel false ⟨x, u, manageDateSpanStart spanA x v, v⟩).map
          (fun r => (⟨r.1.aInput, r.1.aShown, r.1.bInput, r.1.bInput⟩, r.2 + 1))
      else some (⟨x, u, y, v⟩, 0) := by
  rw [cascade]

/-- A run of B's handler. -/
theorem cascade_B (spanA spanB : Option Nat) (fuel : Nat) (x u y v : Int) :
    cascade spanA spanB (fuel + 1) false ⟨x, u, y, v⟩ =
      if manageDateSpanEnd spanB y u ≠ u then
        (cascade spanA spanB fuel true ⟨manageDateSpanEnd spanB y u, u, y, v⟩).map
          (fun r => (⟨r.1.aInput, r.1.aInput, r.1.bInput, r.1.bShown⟩, r.2 + 1))
      else some (⟨x, u, y, v⟩, 0) := by
  rw [cascade]

/-- Day numbers of the dates of the example below. -/
theorem cascade_example_numbers :
    mdy 3 20 2020 = 18341 ∧ mdy 3 1 2020 = 18322 ∧ mdy 3 15 2020 = 18336 ∧
    mdy 3 17 2020 = 18338 ∧ mdy 3 12 2020 = 18333 ∧ mdy 3 5 2020 = 18326 ∧
    mdy 3 3 2020 = 18324 := by
  decide

theorem C14_third_step_writes :
    manageDateSpanStart (some 5) (mdy 3 20 2020) (mdy 3 1 2020) = mdy 3 15 2020 ∧
    manageDateSpanEnd (some 2) (mdy 3 15 2020) (mdy 3 20 2020) = mdy 3 17 2020 ∧
    manageDateSpanStart (some 5) (mdy 3 17 2020) (mdy 3 1 2020) = mdy 3 12 2020 ∧
    mdy 3 12 2020 ≠ mdy 3 1 2020 ∧
    cascade (some 5) (some 2) 3 true (settled (mdy 3 20 2020) (mdy 3 1 2020)) = none ∧
    cascade (some 5) (some 2) 11 true (settled (mdy 3 20 2020) (mdy 3 1 2020))
      = some (settled (mdy 3 5 2020) (mdy 3 3 2020), 10) := by
  obtain ⟨e1, e2, e3, e4, e5, e6, e7⟩ := cascade_example_numbers
  rw [e1, e2, e3, e4, e5, e6, e7]
  simp [settled, cascade_A, cascade_B, cascade_zero, manageDateSpanStart_eq,
    manageDateSpanEnd_eq]

/-- With maxDaySpan absent on A or on B, or B's at least A's, B's handler finds nothing to write
after A's handler has written B. -/
theorem second_correction_idle (spanA spanB : Option Nat) (a b : Int)
    (h : spanA = none ∨ spanB = none ∨ ∃ m n, spanA = some m ∧ spanB = some n ∧ m ≤ n)
    (hw : manageDateSpanStart spanA a b ≠ b) :
    manageDateSpanEnd spanB (manageDateSpanStart spanA a b) a = a := by
  simp only [manageDateSpanStart_eq, manageDateSpanEnd_eq] at hw ⊢
  rcases h with h | h | ⟨m, n, h1, h2, h3⟩
  · subst h
    cases spanB <;> simp only at hw ⊢ <;> split_ifs at hw ⊢ <;> omega
  · subst h
    cases spanA <;> simp only at hw ⊢ <;> split_ifs at hw ⊢ <;> omega
  · subst h1 h2
    simp only at hw ⊢
    split_ifs at hw ⊢ <;> omega

/-- With B's maxDaySpan smaller than A's and B showing a date more than A's maxDaySpan after the
date A shows, every run of a handler writes: the cascade exhausts any bound on the number of
runs. -/
theorem cascade_runs_on (m n : Nat) (hmn : n < m) (a0 b0 : Int) (hab : a0 + m < b0) (fuel : Nat) :
    (∀ x y, x ≤ a0 → cascade (some m) (some n) fuel true ⟨x, a0, y, b0⟩ = none) ∧
    (∀ x y, y ≤ a0 - m → cascade (some m) (some n) fuel false ⟨x, a0, y, b0⟩ = none) := by
  induction fuel with
  | zero => exact ⟨fun _ _ _ => rfl, fun _ _ _ => rfl⟩
  | succ k ih =>
    obtain ⟨ihA, ihB⟩ := ih
    constructor
    · intro x y hx
      have e : manageDateSpanStart (some m) x b0 = x - m := by
        rw [manageDateSpanStart_eq]
        simp only
        rw [if_pos (by omega)]
      rw [cascade_A, e, if_pos (by omega), ihB x (x - m) (by omega)]
      rfl
    · intro x y hy
      have e : manageDateSpanEnd (some n) y a0 = y + n := by
        rw [manageDateSpanEnd_eq]
        simp only
        rw [if_pos (by omega)]
      rw [cascade_B, e, if_pos (by omega), ihA (y + n) y (by omega)]
      rfl

/-- While A's display field still shows the day before the date A holds (A was moved one day on
through `setDate`, as a pan step right does) and B shows the day after it, every run of a
handler writes, whatever the two maxDaySpans: the cascade exhausts any bound on the number of
runs. -/
theorem cascade_runs_on_stale (spanA spanB : Option Nat) (a : Int) (fuel : Nat) :
    (∀ y, cascade spanA spanB fuel true ⟨a, a - 1, y, a + 1⟩ = none) ∧
    (∀ x, cascade spanA spanB fuel false ⟨x, a - 1, a, a + 1⟩ = none) := by
  have eS : manageDateSpanStart spanA a (a + 1) = a := by
    rw [manageDateSpanStart_eq]
    cases spanA <;> simp only <;> split_ifs <;> omega
  have eE : manageDateSpanEnd spanB a (a - 1) = a := by
    rw [manageDateSpanEnd_eq]
    cases spanB <;> simp only <;> split_ifs <;> omega
  induction fuel with
  | zero => exact ⟨fun _ => rfl, fun _ => rfl⟩
  | succ k ih =>
    obtain ⟨ihA, ihB⟩ := ih
    constructor
    · intro y
      rw [cascade_A, eS, if_pos (by omega), ihB a]
      rfl
    · intro x
      rw [cascade_B, eE, if_pos (by omega), ihA a]
      rfl

/-- When the first two handlers write and A's handler then finds that its correction of the value
B's display field still shows is that value, the cascade ends after two writes. -/
theorem cascade_two_writes (spanA spanB : Option Nat) (a b : Int) (fuel : Nat)
    (h1 : manageDateSpanStart spanA a b ≠ b)
    (h2 : manageDateSpanEnd spanB (manageDateSpanStart spanA a b) a ≠ a)
    (h3 : manageDateSpanStart spanA (manageDateSpanEnd spanB (manageDateSpanStart spanA a b) a) b
      = b) :
    cascade spanA spanB (fuel + 3) true (settled a b)
      = some (settled (manageDateSpanEnd spanB (manageDateSpanStart spanA a b) a)
          (manageDateSpanStart spanA a b), 2) := by
  unfold settled
  rw [cascade_A, if_pos h1, cascade_B, if_pos h2, cascade_A, if_neg (not_not.mpr h3)]
  rfl

theorem cascade_two_writes_witness :
    cascade (some 5) (some 2) (0 + 3) true (settled 20 14) = some (settled 17 15, 2) := by
  have h := cascade_two_writes (some 5) (some 2) 20 14 0
    (by simp [manageDateSpanStart_eq]) (by simp [manageDateSpanStart_eq, manageDateSpanEnd_eq])
    (by simp [manageDateSpanStart_eq, manageDateSpanEnd_eq])
  simpa [manageDateSpanStart_eq, manageDateSpanEnd_eq] using h

/-- C14 (amended): two pickers A and B without minDate/maxDate, A naming B as its span-start
counterpart and B naming A as its span-end counterpart.  When both show the values `a` and `b`
they hold and maxDaySpan is absent on A, or absent on B, or B's is at least A's, then for all `a`
and `b` the cascade started by a change of A ends after at most one write: A's correction of B
is followed by a run of B's handler that writes nothing, A keeps `a` and B holds A's
correction.  For every other pair of maxDaySpans there are such values from which the cascade
never ends; and for every pair of maxDaySpans there are values from which it never ends when A's
display field still shows A's previous value. -/
theorem C14_linked_cascade (spanA spanB : Option Nat) :
    ((spanA = none ∨ spanB = none ∨ ∃ m n, spanA = some m ∧ spanB = some n ∧ m ≤ n) →
      ∀ (a b : Int) (fuel : Nat),
        cascade spanA spanB (fuel + 2) true (settled a b)
          = some (settled a (manageDateSpanStart spanA a b),
              if manageDateSpanStart spanA a b = b then 0 else 1)) ∧
    (¬ (spanA = none ∨ spanB = none ∨ ∃ m n, spanA = some m ∧ spanB = some n ∧ m ≤ n) →
      ∃ a b : Int, ∀ fuel : Nat, cascade spanA spanB fuel true (settled a b) = none) ∧
    (∃ a shown b : Int, ∀ fuel : Nat,
      cascade spanA spanB fuel true ⟨a, shown, b, b⟩ = none) := by
  refine ⟨?_, ?_, ?_⟩
  · intro h a b fuel
    unfold settled
    rw [cascade_A]
    by_cases h1 : manageDateSpanStart spanA a b = b
    · rw [if_neg (not_not.mpr h1), if_pos h1, h1]
    · have h2 := second_correction_idle spanA spanB a b h h1
      rw [if_pos h1, if_neg h1, cascade_B, if_neg (not_not.mpr h2)]
      rfl
  · intro h
    cases spanA with
    | none => exact absurd (Or.inl rfl) h
    | some m =>
      cases spanB with
      | none => exact absurd (Or.inr (Or.inl rfl)) h
      | some n =>
        have hmn : n < m := by
          by_contra hc
          exact h (Or.inr (Or.inr ⟨m, n, rfl, rfl, by omega⟩))
        refine ⟨0, (m : Int) + 1, fun fuel => ?_⟩
        exact (cascade_runs_on m n hmn 0 ((m : Int) + 1) (by omega) fuel).1 0 _ le_rfl
  · exact ⟨0, 0 - 1, 0 + 1, fun fuel => (cascade_runs_on_stale spanA spanB 0 fuel).1 _⟩

/-- C14 (amended) with maxDaySpan 5 on A and 7 on B, A at 3/20/2020 and B at 3/1/2020: B is set
to 3/15/2020 and nothing else is written.  With maxDaySpan 5 on A and 2 on B some values let
the cascade run on for ever. -/
theorem C14_linked_cascade_witness :
    cascade (some 5) (some 7) (0 + 2) true (settled (mdy 3 20 2020) (mdy 3 1 2020))
      = some (settled (mdy 3 20 2020) (manageDateSpanStart (some 5) (mdy 3 20 2020) (mdy 3 1 2020)),
          if manageDateSpanStart (some 5) (mdy 3 20 2020) (mdy 3 1 2020) = mdy 3 1 2020 then 0
          else 1) ∧
    manageDateSpanStart (some 5) (mdy 3 20 2020) (mdy 3 1 2020) = mdy 3 15 2020 ∧
    ∃ a b : Int, ∀ fuel : Nat, cascade (some 5) (some 2) fuel true (settled a b) = none :=
  ⟨(C14_linked_cascade (some 5) (some 7)).1
      (Or.inr (Or.inr ⟨5, 7, rfl, rfl, by decide⟩)) (mdy 3 20 2020) (mdy 3 1 2020) 0,
    by decide,
    (C14_linked_cascade (some 5) (some 2)).2.1 (by
      rintro (h | h | ⟨m, n, h1, h2, h3⟩)
      · cases h
      · cases h
      · cases h1; cases h2; omega)⟩

/-- With maxDaySpan 0 on both pickers, A and B at 3/10/2020 and A then moved to 3/9/2020 through
`setDate` (a pan step left), so that A's display field still shows 3/10/2020: A's handler sets B
to 3/9/2020, B's handler compares with the 3/10/2020 that A shows and writes A, A's handler
compares with the 3/10/2020 that B shows and writes B, and so on without end. -/
theorem cascade_after_pan_never_ends (fuel : Nat) :
    cascade (some 0) (some 0) fuel true
      ⟨mdy 3 9 2020, mdy 3 10 2020, mdy 3 10 2020, mdy 3 10 2020⟩ = none := by
  have key : ∀ k : Nat, ∀ a : Int,
      (∀ y, cascade (some 0) (some 0) k true ⟨a, a + 1, y, a + 1⟩ = none) ∧
      (∀ x, cascade (some 0) (some 0) k false ⟨x, a + 1, a, a + 1⟩ = none) := by
    intro k a
    have eS : manageDateSpanStart (some 0) a (a + 1) = a := by
      rw [manageDateSpanStart_eq]
      simp only
      split_ifs <;> omega
    have eE : manageDateSpanEnd (some 0) a (a + 1) = a := by
      rw [manageDateSpanEnd_eq]
      simp only
      split_ifs <;> omega
    induction k with
    | zero => exact ⟨fun _ => rfl, fun _ => rfl⟩
    | succ j ih =>
      obtain ⟨ihA, ihB⟩ := ih
      constructor
      · intro y
        rw [cascade_A, eS, if_pos (by omega), ihB a]
        rfl
      · intro x
        rw [cascade_B, eE, if_pos (by omega), ihA a]
        rfl
  have e : mdy 3 10 2020 = mdy 3 9 2020 + 1 := by decide
  rw [e]
  exact (key fuel (mdy 3 9 2020)).1 _

/-- From A at 3/1/2020 and B at 3/20/2020, with maxDaySpan 5 on A and 2 on B, the cascade never
ends. -/
theorem cascade_never_ends (fuel : Nat) :
    cascade (some 5) (some 2) fuel true (settled (mdy 3 1 2020) (mdy 3 20 2020)) = none :=
  (cascade_runs_on 5 2 (by decide) (mdy 3 1 2020) (mdy 3 20 2020) (by decide) fuel).1 _ _ le_rfl

end Datepicker
